import Mathlib

/-!
Verification of the Financial Metrics Aggregation Engine.

This file gives a shallow embedding, in Lean 4, of the core computations of
the `acm_analysis` repository and proves properties about them.

Conventions of the embedding:
* Python numbers (the program works on API-provided floats) are modelled as
  rationals `ℚ`; a field that may be missing from a provider dictionary is
  an `Option ℚ`, and `d.get k` / `d.get k 0` become the `Option` itself /
  `Option.getD _ 0`.
* Python exceptions are modelled with `Except String`: a raised exception is
  `.error msg` (messages paraphrase CPython texts without quoting them
  verbatim), a normal return is `.ok`.
* The float power `base ** (1 / periods)` inside `calculate_cagr` is not a
  rational operation; it is modelled by an arbitrary parameter
  `pw : ℚ → ℤ → Option ℚ` where `pw base periods` stands for
  `base ** (1 / periods)` and `none` stands for an arithmetic fault raised
  by the power (which the source catches).  All general theorems hold for
  every `pw`; concrete evaluations instantiate it.
* Python dictionaries keyed by year are modelled as association lists
  `List (ℤ × _)` in insertion order with pairwise-distinct keys, which is a
  `dict` invariant.
-/

/-- Python truthiness of an optional number: `None`, `0` and `0.0` are falsy,
everything else is truthy. -/
def truthyQ (o : Option ℚ) : Bool :=
  o.getD 0 != 0

/-- The predicate of the anchoring scan in `calculate_cagr`
(`vals[idx] is None or vals[idx] <= 0`). -/
def nonPosO (o : Option ℚ) : Bool :=
  match o with
  | none => true
  | some v => v ≤ 0

/-- Round an integer-valued quantity to the nearest integer, ties going to the
even integer; the rounding mode of Python `round`. -/
def roundHalfEven (x : ℚ) : ℤ :=
  let f : ℤ := ⌊x⌋
  let frac : ℚ := x - f
  if frac < 1/2 then f
  else if 1/2 < frac then f + 1
  else if f % 2 = 0 then f else f + 1

/-- Python `round(x, 2)` (round-half-even at two decimal places), idealised to
exact rational arithmetic. -/
def round2 (x : ℚ) : ℚ :=
  (roundHalfEven (x * 100) : ℚ) / 100

/-- Year of the first pair of a series (`years[0]`; series nonempty at use sites). -/
def firstYear (s : List (ℤ × Option ℚ)) : ℤ :=
  ((s.map Prod.fst).head?).getD 0

/-- Year of the last pair of a series (`years[-1]`; series nonempty at use sites). -/
def lastYear (s : List (ℤ × Option ℚ)) : ℤ :=
  ((s.map Prod.fst).getLast?).getD 0

/-- Value of the last pair of a series (`vals[-1]`; series nonempty at use sites). -/
def lastVal (s : List (ℤ × Option ℚ)) : Option ℚ :=
  ((s.map Prod.snd).getLast?).getD none

/-- The part of `calculate_cagr` from the anchoring scan onward (lines 37-66
of `src/utils/calculations.py`), taking the last year `ly` and last value
`endO` of the series and the suffix produced by the scan.  An exhausted scan
(`idx >= len(vals)`) returns `None`; otherwise `begin_value` is the anchor
value, `periods` is recomputed as `years[-1] - years[idx]` (also when
`idx == 0`, where it coincides with the initial `periods`), and the guard
`begin_value <= 0 or end_value <= 0 or periods <= 0` short-circuits exactly
as in CPython: with a positive `begin_value` and a `None` last value, the
comparison `end_value <= 0` raises `TypeError`, outside the `try`.  The
final power `(end_value / begin_value) ** (1 / periods)` is the `pw`
parameter; its `none` is an arithmetic fault, caught and mapped to `None`. -/
def cagr_from_anchor (pw : ℚ → ℤ → Option ℚ) (ly : ℤ) (endO : Option ℚ) :
    List (ℤ × Option ℚ) → Except String (Option ℚ)
  | [] => .ok none
  | (ay, av) :: _ =>
    let beginV := av.getD 0
    if beginV ≤ 0 then .ok none
    else
      match endO with
      | none => .error "TypeError: comparison not supported between NoneType and int"
      | some endV =>
        if endV ≤ 0 then .ok none
        else if ly - ay ≤ 0 then .ok none
        else
          match pw (endV / beginV) (ly - ay) with
          | some r => .ok (some (r - 1))
          | none => .ok none

/-- Embedding of `calculate_cagr` from `src/utils/calculations.py`.

The source takes `values_by_year`, a list of `(year, value)` tuples whose
values may be `None`.  It returns `None` when there are fewer than two pairs
or when `periods = years[-1] - years[0] <= 0`; it then runs the anchoring
scan (skipping leading `None`/non-positive values) and continues in
`cagr_from_anchor`. -/
def calculate_cagr (pw : ℚ → ℤ → Option ℚ) (s : List (ℤ × Option ℚ)) :
    Except String (Option ℚ) :=
  if s.length < 2 then .ok none
  else if lastYear s - firstYear s ≤ 0 then .ok none
  else cagr_from_anchor pw (lastYear s) (lastVal s) (s.dropWhile (fun p => nonPosO p.2))

/-- Embedding of `MetricsCalculator.compute_cagr` from
`src/financial_data/processors/metrics_calculator.py`:
`calculate_cagr(values_by_year) * 100 if values_by_year else None`.
When the list is nonempty and `calculate_cagr` returns `None`, the
multiplication `None * 100` raises `TypeError`. -/
def compute_cagr (pw : ℚ → ℤ → Option ℚ) (s : List (ℤ × Option ℚ)) :
    Except String (Option ℚ) :=
  if s.isEmpty then .ok none
  else
    match calculate_cagr pw s with
    | .ok (some v) => .ok (some (v * 100))
    | .ok none => .error "TypeError: unsupported operand * for NoneType and int"
    | .error e => .error e

deriving instance DecidableEq for Except

/-! ## Provider-shaped statement records

One structure per statement list fetched from the provider, holding the
`date` string plus every field the processor reads from the raw dictionary.
A key that may be absent from the dictionary is an `Option ℚ`.
Source field names are kept, except `peRatio` / `operatingIncomeRatio` /
`netIncomeRatio`, which carry a `V` suffix here. -/

structure IncomeStmt where
  date : String := ""
  revenue : Option ℚ := none
  weightedAverageShsOut : Option ℚ := none
  operatingIncome : Option ℚ := none
  incomeTaxExpense : Option ℚ := none
  incomeBeforeTax : Option ℚ := none
  depreciationAndAmortization : Option ℚ := none
  netIncome : Option ℚ := none
  epsDiluted : Option ℚ := none
  dividendPerShare : Option ℚ := none
  costOfRevenue : Option ℚ := none
  researchAndDevelopment : Option ℚ := none
  sellingAndMarketingExpenses : Option ℚ := none
  interestIncome : Option ℚ := none
  totalExpenses : Option ℚ := none
  ebitda : Option ℚ := none
  freeCashFlow : Option ℚ := none
  capitalExpenditure : Option ℚ := none
  operatingIncomeRatioV : Option ℚ := none
  totalOtherIncomeExpensesNet : Option ℚ := none
  netIncomeRatioV : Option ℚ := none
  dividendsPaid : Option ℚ := none
  stockRepurchased : Option ℚ := none
  acquisitionsNet : Option ℚ := none
deriving DecidableEq

structure BalanceStmt where
  date : String := ""
  totalStockholdersEquity : Option ℚ := none
  totalDebt : Option ℚ := none
  longTermDebt : Option ℚ := none
  shortTermDebt : Option ℚ := none
  totalAssets : Option ℚ := none
  totalLiabilities : Option ℚ := none
  cashAndCashEquivalents : Option ℚ := none
  shortTermInvestments : Option ℚ := none
  netReceivables : Option ℚ := none
  otherCurrentAssets : Option ℚ := none
  propertyPlantEquipmentNet : Option ℚ := none
  goodwill : Option ℚ := none
  otherNonCurrentAssets : Option ℚ := none
  longTermInvestments : Option ℚ := none
  accountPayables : Option ℚ := none
  taxPayables : Option ℚ := none
  otherCurrentLiabilities : Option ℚ := none
  deferredRevenue : Option ℚ := none
  otherNonCurrentLiabilities : Option ℚ := none
  capitalLeaseObligations : Option ℚ := none
  commonStock : Option ℚ := none
  additionalPaidInCapital : Option ℚ := none
  retainedEarnings : Option ℚ := none
  accumulatedOtherComprehensiveIncomeLoss : Option ℚ := none
deriving DecidableEq

structure CashFlowStmt where
  date : String := ""
  commonStockRepurchased : Option ℚ := none
  dividendsPaid : Option ℚ := none
deriving DecidableEq

structure KeyMetricStmt where
  date : String := ""
  dividendYield : Option ℚ := none
  peRatioV : Option ℚ := none
  marketCap : Option ℚ := none
deriving DecidableEq

/-- Python `date.startswith(str(year))` (as a character-list prefix test). -/
def dateStartsWithYear (date : String) (year : ℤ) : Bool :=
  (toString year).data.isPrefixOf date.data

/-- Embedding of `FinancialDataProcessor._find_statement_for_year`: first
statement in input order whose date string starts with `str(year)`;
`None` when there is no match.  `date` projects the date string out of the
statement record. -/
def find_statement_for_year {α : Type} (date : α → String) (stmts : List α)
    (year : ℤ) : Option α :=
  stmts.find? (fun s => dateStartsWithYear (date s) year)

/-- Embedding of `FinancialDataProcessor._get_prev_year_equity`: the previous
prior-year `totalStockholdersEquity` (missing key defaulted to 0), or 0 when no
balance sheet resolves for the previous year. -/
def get_prev_year_equity (balance_sheets : List BalanceStmt) (current_year : ℤ) : ℚ :=
  match find_statement_for_year BalanceStmt.date balance_sheets (current_year - 1) with
  | some bs => bs.totalStockholdersEquity.getD 0
  | none => 0

/-- The duck-typed per-year record shape consumed by `MetricsCalculator`
(`Dict[int, FinancialData]`): the calculator reads both the sixteen fields
declared on `models.FinancialData` and the six analysis attributes
(`revenues` .. `depreciation_pct`) that `_process_yoy_financial_data` tries
to supply.  NOTE the `models.py` dataclass declares only the sixteen, so the
constructor call of `_process_yoy_financial_data` raises `TypeError` on its
six extra keyword arguments (see `buildFinancialData`) and the source never
actually constructs such a record; the calculator functions are nonetheless
well-defined over any map of this shape.  `pe_ratio` is named `peRatioV`. -/
structure FinancialData where
  net_profit : Option ℚ := none
  diluted_eps : Option ℚ := none
  operating_eps : Option ℚ := none
  peRatioV : Option ℚ := none
  price_low : Option ℚ := none
  price_high : Option ℚ := none
  dividends_paid : Option ℚ := none
  dividends_per_share : Option ℚ := none
  avg_dividend_yield : Option ℚ := none
  shares_outstanding : Option ℚ := none
  buyback : Option ℚ := none
  share_equity : Option ℚ := none
  book_value_per_share : Option ℚ := none
  long_term_debt : Option ℚ := none
  roe : Option ℚ := none
  roc : Option ℚ := none
  revenues : Option ℚ := none
  sales_per_share : Option ℚ := none
  operating_margin : Option ℚ := none
  tax_rate : Option ℚ := none
  depreciation : Option ℚ := none
  depreciation_pct : Option ℚ := none
deriving DecidableEq

/-- The `operating_eps` constructor argument of `_process_yoy_financial_data`
(line 250 of `data_processor.py`):
`income.get("operatingIncome") / shares_outstanding if shares_outstanding
else None`.  The dictionary read has NO default here, so when
`shares_outstanding` is truthy and the `operatingIncome` key is absent,
CPython raises `TypeError` on `None / shares_outstanding`. -/
def operating_eps_expr (income : IncomeStmt) : Except String (Option ℚ) :=
  if income.weightedAverageShsOut.getD 0 ≠ 0 then
    match income.operatingIncome with
    | some oi => .ok (some (oi / income.weightedAverageShsOut.getD 0))
    | none => .error "TypeError: unsupported operand / for NoneType and float"
  else .ok none

/-- `sales_per_share` of `_process_yoy_financial_data` (line 206):
`(total_revenue / shares_outstanding) if shares_outstanding else None`, all
dictionary reads `0`-defaulted. -/
def yoy_sales_per_share (income : IncomeStmt) : Option ℚ :=
  if income.weightedAverageShsOut.getD 0 ≠ 0 then
    some (income.revenue.getD 0 / income.weightedAverageShsOut.getD 0)
  else none

/-- `operating_margin` of `_process_yoy_financial_data` (line 209). -/
def yoy_operating_margin (income : IncomeStmt) : Option ℚ :=
  if income.revenue.getD 0 ≠ 0 then
    some (income.operatingIncome.getD 0 / income.revenue.getD 0 * 100)
  else none

/-- `tax_rate` of `_process_yoy_financial_data` (line 212). -/
def yoy_tax_rate (income : IncomeStmt) : Option ℚ :=
  if income.incomeBeforeTax.getD 0 ≠ 0 then
    some (income.incomeTaxExpense.getD 0 / income.incomeBeforeTax.getD 0 * 100)
  else none

/-- `depreciation_pct` of `_process_yoy_financial_data` (line 217). -/
def yoy_depreciation_pct (income : IncomeStmt) : Option ℚ :=
  if income.netIncome.getD 0 ≠ 0 then
    some (income.depreciationAndAmortization.getD 0 / income.netIncome.getD 0 * 100)
  else none

/-- `avg_equity` of `_process_yoy_financial_data` (lines 220-223). -/
def yoy_avg_equity (balance : BalanceStmt) (prev_equity : ℚ) : ℚ :=
  (balance.totalStockholdersEquity.getD 0 + prev_equity) / 2

/-- `roe` of `_process_yoy_financial_data` (line 225). -/
def yoy_roe (income : IncomeStmt) (balance : BalanceStmt) (prev_equity : ℚ) :
    Option ℚ :=
  if yoy_avg_equity balance prev_equity ≠ 0 then
    some (income.netIncome.getD 0 / yoy_avg_equity balance prev_equity * 100)
  else none

/-- `roc` of `_process_yoy_financial_data` (lines 227-228). -/
def yoy_roc (income : IncomeStmt) (balance : BalanceStmt) (prev_equity : ℚ) :
    Option ℚ :=
  if yoy_avg_equity balance prev_equity + balance.totalDebt.getD 0 ≠ 0 then
    some (income.operatingIncome.getD 0
      / (yoy_avg_equity balance prev_equity + balance.totalDebt.getD 0) * 100)
  else none

/-- `book_value_per_share` of `_process_yoy_financial_data` (line 232). -/
def yoy_book_value_per_share (income : IncomeStmt) (balance : BalanceStmt) :
    Option ℚ :=
  if income.weightedAverageShsOut.getD 0 ≠ 0 then
    some (balance.totalStockholdersEquity.getD 0 / income.weightedAverageShsOut.getD 0)
  else none

/-- `buyback = abs(cash_flow.get("commonStockRepurchased", 0))` of
`_process_yoy_financial_data` (line 234). -/
def yoy_buyback (cash_flow : CashFlowStmt) : ℚ :=
  |cash_flow.commonStockRepurchased.getD 0|

/-- `dividends_paid = abs(cash_flow.get("dividendsPaid", 0))` of
`_process_yoy_financial_data` (line 237). -/
def yoy_dividends_paid (cash_flow : CashFlowStmt) : ℚ :=
  |cash_flow.dividendsPaid.getD 0|

/-- The per-year body of `_process_yoy_financial_data` (lines 200-271 of
`src/financial_data/data_processor.py`), for one year whose income, balance
and cash-flow statements were found.  `prev_equity` is
`_get_prev_year_equity(balance_sheets, year)`; `price_high` / `price_low`
are the values fetched from the Yahoo client for the year.

Lines 200-245 compute the local metrics (the `yoy_*` definitions above and
the dividend/price locals); they are pure and cannot raise.  The
`FinancialData(...)` constructor call (lines 247-271) then evaluates its
keyword arguments in source order - `operating_eps` (line 250) is the only
one that can fault - and, whichever way that goes through, the call ITSELF
raises `TypeError`: it passes `revenues`, `sales_per_share`,
`operating_margin`, `tax_rate`, `depreciation` and `depreciation_pct`, six
keyword arguments the `models.FinancialData` dataclass does not declare (and
`revenues`, the first of them, is the one CPython reports).  The builder
therefore never returns a record. -/
def buildFinancialData (income : IncomeStmt) (balance : BalanceStmt)
    (prev_equity : ℚ) (cash_flow : CashFlowStmt) (key_metric : Option KeyMetricStmt)
    (price_high price_low : Option ℚ) : Except String FinancialData :=
  let _sales_per_share := yoy_sales_per_share income
  let _operating_margin := yoy_operating_margin income
  let _tax_rate := yoy_tax_rate income
  let _depreciation_pct := yoy_depreciation_pct income
  let _roe := yoy_roe income balance prev_equity
  let _roc := yoy_roc income balance prev_equity
  let _book_value_per_share := yoy_book_value_per_share income balance
  let _buyback := yoy_buyback cash_flow
  let _dividends_paid := yoy_dividends_paid cash_flow
  let _dividends_per_share := income.dividendPerShare.getD 0
  let _dividend_yield : Option ℚ :=
    match key_metric with
    | some km => some (km.dividendYield.getD 0)
    | none => none
  let _pe : Option ℚ :=
    match key_metric with
    | some km => km.peRatioV
    | none => none
  let _prices := (price_high, price_low)
  match operating_eps_expr income with
  | .error e => .error e
  | .ok _operating_eps =>
    .error "TypeError: init got an unexpected keyword argument revenues"

/-- Embedding of `_process_yoy_financial_data` (loop over the requested
years): a year is skipped (`continue`) when its income, balance-sheet or
cash-flow statement does not resolve; the key-metrics entry is optional.
An exception inside the body aborts the whole computation - and since
`buildFinancialData` always raises, any year whose three statements all
resolve aborts the run, so a successful return carries an empty map.
`priceHigh` / `priceLow` model the Yahoo price client. -/
def process_yoy_financial_data (years : List ℤ) (income_statements : List IncomeStmt)
    (balance_sheets : List BalanceStmt) (cash_flows : List CashFlowStmt)
    (key_metrics : List KeyMetricStmt) (priceHigh priceLow : ℤ → Option ℚ) :
    Except String (List (ℤ × FinancialData)) :=
  match years with
  | [] => .ok []
  | year :: rest =>
    match find_statement_for_year IncomeStmt.date income_statements year,
          find_statement_for_year BalanceStmt.date balance_sheets year,
          find_statement_for_year CashFlowStmt.date cash_flows year with
    | some income, some balance, some cash_flow =>
      match buildFinancialData income balance (get_prev_year_equity balance_sheets year)
              cash_flow (find_statement_for_year KeyMetricStmt.date key_metrics year)
              (priceHigh year) (priceLow year) with
      | .ok d =>
        match process_yoy_financial_data rest income_statements balance_sheets
                cash_flows key_metrics priceHigh priceLow with
        | .ok m => .ok ((year, d) :: m)
        | .error e => .error e
      | .error e => .error e
    | _, _, _ =>
      process_yoy_financial_data rest income_statements balance_sheets
        cash_flows key_metrics priceHigh priceLow

/-! ## CharacteristicsAggregator (`MetricsCalculator`) -/

/-- Insertion of a pair into a year-sorted list of pairs; building block of
`sorted(...)` on `(year, value)` tuples.  All call sites have pairwise
distinct years, so sorting by year alone agrees with Python tuple order. -/
def insertPair (p : ℤ × Option ℚ) : List (ℤ × Option ℚ) → List (ℤ × Option ℚ)
  | [] => [p]
  | q :: qs => if p.1 ≤ q.1 then p :: q :: qs else q :: insertPair p qs

/-- Python `sorted(pairs)` (insertion sort; stable, ascending by year). -/
def sortPairs (l : List (ℤ × Option ℚ)) : List (ℤ × Option ℚ) :=
  l.foldr insertPair []

/-- Insertion of a year into a sorted list of years. -/
def insertYear (y : ℤ) : List ℤ → List ℤ
  | [] => [y]
  | x :: xs => if y ≤ x then y :: x :: xs else x :: insertYear y xs

/-- Python `sorted(years)` (insertion sort, ascending). -/
def sortYears (l : List ℤ) : List ℤ :=
  l.foldr insertYear []

/-- Python `l[-n:]`: the last `n` elements of a list. -/
def takeLast (n : ℕ) (l : List ℤ) : List ℤ :=
  l.drop (l.length - n)

/-- Python `l[-n:]` on pair lists. -/
def takeLastPairs (n : ℕ) (l : List (ℤ × Option ℚ)) : List (ℤ × Option ℚ) :=
  l.drop (l.length - n)

/-- Dictionary access `yoy_data[year]` on the year → record association list. -/
def lookupYear (m : List (ℤ × FinancialData)) (y : ℤ) : Option FinancialData :=
  (m.find? (fun p => p.1 == y)).map Prod.snd

structure InvestmentCharacteristics where
  growth_rate_percent_operating_eps : Option ℚ := none
  quality_percent : Option ℚ := none
deriving DecidableEq

structure UseOfEarningsAnalysis where
  avg_dividend_payout_percent : Option ℚ := none
  avg_stock_buyback_percent : Option ℚ := none
deriving DecidableEq

structure SalesAnalysis where
  growth_rate_percent_revenues : Option ℚ := none
  growth_rate_percent_sales_per_share : Option ℚ := none
deriving DecidableEq

/-- Embedding of `MetricsCalculator.compute_earnings_analysis`.
Pairs are kept for truthy (non-`None`, nonzero) operating EPS; the CAGR is
taken only when at least two pairs remain (otherwise the field is `None`);
quality percent is `round(avg_diluted / avg_operating * 100, 2)` guarded by a
truthy average operating EPS. -/
def compute_earnings_analysis (pw : ℚ → ℤ → Option ℚ)
    (yoy : List (ℤ × FinancialData)) : Except String InvestmentCharacteristics :=
  let ops_eps_pairs := yoy.filterMap (fun p =>
    if truthyQ p.2.operating_eps then some (p.1, p.2.operating_eps) else none)
  match (if 2 ≤ ops_eps_pairs.length then compute_cagr pw (sortPairs ops_eps_pairs)
         else .ok none) with
  | .error e => .error e
  | .ok growth =>
    let diluted_eps_values := yoy.filterMap (fun p =>
      if truthyQ p.2.diluted_eps then some (p.2.diluted_eps.getD 0) else none)
    let operating_eps_values := yoy.filterMap (fun p =>
      if truthyQ p.2.operating_eps then some (p.2.operating_eps.getD 0) else none)
    let quality :=
      if diluted_eps_values ≠ [] ∧ operating_eps_values ≠ [] then
        let avg_diluted := diluted_eps_values.sum / diluted_eps_values.length
        let avg_operating := operating_eps_values.sum / operating_eps_values.length
        if avg_operating ≠ 0 then some (round2 (avg_diluted / avg_operating * 100))
        else none
      else none
    .ok { growth_rate_percent_operating_eps := growth, quality_percent := quality }

/-- Embedding of `MetricsCalculator.compute_use_of_earnings_analysis`.
Payout: per-year ratio `(dividends_per_share / operating_eps) * 100` over the
years where BOTH operands are truthy, then averaged and rounded.  Buyback:
`sum(buybacks) / sum(net_profits) * 100` where the numerator sums the truthy
buybacks and the denominator the truthy net profits, each filtered
independently; a zero denominator sum yields `None`. -/
def compute_use_of_earnings_analysis (yoy : List (ℤ × FinancialData)) :
    UseOfEarningsAnalysis :=
  let dividend_payouts := yoy.filterMap (fun p =>
    if truthyQ p.2.dividends_per_share ∧ truthyQ p.2.operating_eps then
      some (p.2.dividends_per_share.getD 0 / p.2.operating_eps.getD 0 * 100)
    else none)
  let payout :=
    if dividend_payouts ≠ [] then
      some (round2 (dividend_payouts.sum / dividend_payouts.length))
    else none
  let buybacks := yoy.filterMap (fun p =>
    if truthyQ p.2.buyback then some (p.2.buyback.getD 0) else none)
  let net_profits := yoy.filterMap (fun p =>
    if truthyQ p.2.net_profit then some (p.2.net_profit.getD 0) else none)
  let buyback_pct :=
    if buybacks ≠ [] ∧ net_profits ≠ [] then
      if net_profits.sum ≠ 0 then
        some (round2 (buybacks.sum / net_profits.sum * 100))
      else none
    else none
  { avg_dividend_payout_percent := payout, avg_stock_buyback_percent := buyback_pct }

/-- Embedding of `MetricsCalculator.compute_sales_analysis`. -/
def compute_sales_analysis (pw : ℚ → ℤ → Option ℚ)
    (yoy : List (ℤ × FinancialData)) : Except String SalesAnalysis :=
  let rev_pairs := yoy.filterMap (fun p =>
    if truthyQ p.2.revenues then some (p.1, p.2.revenues) else none)
  match (if 2 ≤ rev_pairs.length then compute_cagr pw (sortPairs rev_pairs)
         else .ok none) with
  | .error e => .error e
  | .ok g_rev =>
    let sps_pairs := yoy.filterMap (fun p =>
      if truthyQ p.2.sales_per_share then some (p.1, p.2.sales_per_share) else none)
    match (if 2 ≤ sps_pairs.length then compute_cagr pw (sortPairs sps_pairs)
           else .ok none) with
    | .error e => .error e
    | .ok g_sps =>
      .ok { growth_rate_percent_revenues := g_rev,
            growth_rate_percent_sales_per_share := g_sps }

/-- The slice `sorted(yoy_data.keys())[-5:]` in
`compute_sales_analysis_last_5_years`: the five greatest years of the map
(all of them when fewer than five exist). -/
def last_5_years_of (yoy : List (ℤ × FinancialData)) : List ℤ :=
  takeLast 5 (sortYears (yoy.map Prod.fst))

/-- The last-5-years revenue pairs: the selected years, restricted to truthy
revenues.  The dictionary accesses `yoy_data[year]` cannot miss because the
years come from the keys; the embedding skips a (dead) missing-key case. -/
def rev_pairs_5y_of (yoy : List (ℤ × FinancialData)) : List (ℤ × Option ℚ) :=
  (last_5_years_of yoy).filterMap (fun y =>
    match lookupYear yoy y with
    | some d => if truthyQ d.revenues then some (y, d.revenues) else none
    | none => none)

/-- The last-5-years sales-per-share pairs. -/
def sps_pairs_5y_of (yoy : List (ℤ × FinancialData)) : List (ℤ × Option ℚ) :=
  (last_5_years_of yoy).filterMap (fun y =>
    match lookupYear yoy y with
    | some d => if truthyQ d.sales_per_share then some (y, d.sales_per_share) else none
    | none => none)

/-- Embedding of `MetricsCalculator.compute_sales_analysis_last_5_years`.
The five greatest years of the map are selected FIRST, and only then are
pairs with falsy (`None`/zero) revenue or sales-per-share dropped. -/
def compute_sales_analysis_last_5_years (pw : ℚ → ℤ → Option ℚ)
    (yoy : List (ℤ × FinancialData)) : Except String SalesAnalysis :=
  match (if 2 ≤ (rev_pairs_5y_of yoy).length then
           compute_cagr pw (sortPairs (rev_pairs_5y_of yoy))
         else .ok none) with
  | .error e => .error e
  | .ok g_rev =>
    match (if 2 ≤ (sps_pairs_5y_of yoy).length then
             compute_cagr pw (sortPairs (sps_pairs_5y_of yoy))
           else .ok none) with
    | .error e => .error e
    | .ok g_sps =>
      .ok { growth_rate_percent_revenues := g_rev,
            growth_rate_percent_sales_per_share := g_sps }

/-- First-occurrence deduplication; stands for the set union of segment names.
(Python iterates a `set`, whose order is implementation-defined; only the
underlying set of names is significant to our claims.) -/
def firstDedup (l : List String) : List String :=
  l.foldl (fun acc x => if x ∈ acc then acc else acc ++ [x]) []

/-- Python `segments_dict.get(segment)` on the segment-to-revenue mapping of one year. -/
def segGet (seg : String) (d : List (String × ℚ)) : Option ℚ :=
  (d.find? (fun p => p.1 == seg)).map Prod.snd

/-- The `(year, value)` series of one segment, keeping truthy values only. -/
def segSeries (rs : List (ℤ × List (String × ℚ))) (seg : String) :
    List (ℤ × Option ℚ) :=
  rs.filterMap (fun p =>
    match segGet seg p.2 with
    | some v => if v ≠ 0 then some (p.1, some v) else none
    | none => none)

/-- The per-segment loop body of `compute_revenue_breakdown_cagr`: for each
segment, when the sorted truthy series has at least two pairs the entry is
`round(calculate_cagr(series) * 100, 2)` — raising `TypeError` when
`calculate_cagr` returns `None` — otherwise the entry is `None`. -/
def revenue_breakdown_entries (pw : ℚ → ℤ → Option ℚ)
    (rs : List (ℤ × List (String × ℚ))) :
    List String → Except String (List (String × Option ℚ))
  | [] => .ok []
  | seg :: rest =>
    let segment_values := sortPairs (segSeries rs seg)
    if 2 ≤ segment_values.length then
      match calculate_cagr pw segment_values with
      | .ok (some c) =>
        match revenue_breakdown_entries pw rs rest with
        | .ok l => .ok (("cagr_revenues_" ++ seg ++ "_percent", some (round2 (c * 100))) :: l)
        | .error e => .error e
      | .ok none => .error "TypeError: unsupported operand * for NoneType and int"
      | .error e => .error e
    else
      match revenue_breakdown_entries pw rs rest with
      | .ok l => .ok (("cagr_revenues_" ++ seg ++ "_percent", none) :: l)
      | .error e => .error e

/-- Embedding of `MetricsCalculator.compute_revenue_breakdown_cagr`. -/
def compute_revenue_breakdown_cagr (pw : ℚ → ℤ → Option ℚ)
    (rs : List (ℤ × List (String × ℚ))) :
    Except String (List (String × Option ℚ)) :=
  revenue_breakdown_entries pw rs (firstDedup (rs.flatMap (fun p => p.2.map Prod.fst)))

/-! ### Specification-side aggregation policies (for comparison only)

These definitions follow the words of the specification/claims, NOT the
source; they exist to be compared against the embedded source functions. -/

/-- Modelled from the claim wording for C6: mean over years of
`dividends_per_share / operating_eps` (as a rounded percent), restricted to
years where both operands are PRESENT and `operating_eps != 0` (a present
zero dividends-per-share year contributes a 0% ratio). -/
def claim_avg_dividend_payout_percent (yoy : List (ℤ × FinancialData)) : Option ℚ :=
  let ratios := yoy.filterMap (fun p =>
    match p.2.dividends_per_share, p.2.operating_eps with
    | some dps, some eps => if eps ≠ 0 then some (dps / eps * 100) else none
    | _, _ => none)
  if ratios ≠ [] then some (round2 (ratios.sum / ratios.length)) else none

/-- Modelled from the claim wording for C10: the opposite "filter first, then
take the five greatest remaining years" policy for the last-5-years sales
analysis, used to show the source does NOT implement it. -/
def claim_sales_analysis_filter_then_select (pw : ℚ → ℤ → Option ℚ)
    (yoy : List (ℤ × FinancialData)) : Except String SalesAnalysis :=
  let rev_pairs := takeLastPairs 5 (sortPairs (yoy.filterMap (fun p =>
    if truthyQ p.2.revenues then some (p.1, p.2.revenues) else none)))
  match (if 2 ≤ rev_pairs.length then compute_cagr pw rev_pairs else .ok none) with
  | .error e => .error e
  | .ok g_rev =>
    let sps_pairs := takeLastPairs 5 (sortPairs (yoy.filterMap (fun p =>
      if truthyQ p.2.sales_per_share then some (p.1, p.2.sales_per_share) else none)))
    match (if 2 ≤ sps_pairs.length then compute_cagr pw sps_pairs else .ok none) with
    | .error e => .error e
    | .ok g_sps =>
      .ok { growth_rate_percent_revenues := g_rev,
            growth_rate_percent_sales_per_share := g_sps }

/-! ## Profit description (`_process_profit_description`) -/

structure ExpensesBreakdown where
  cost_of_revenue : Option ℚ := none
  research_and_development : Option ℚ := none
  selling_marketing_general_admin : Option ℚ := none
deriving DecidableEq

structure ExternalCostBreakdown where
  income_taxes : Option ℚ := none
  interest_and_other_income : Option ℚ := none
deriving DecidableEq

/-- The per-year profit-description record as constructed in
`_process_profit_description` (lines 347-366 of `data_processor.py`).
`operating_earnings_percent_revenue`, `earnings_percent_revenue` and
`dividend_paid` are stringified in the source
(`str(round(... * 100, 2)) + "%"`, `str(...)`); we embed the numeric content
of those strings. -/
structure ProfitDescriptionData where
  total_revenues : Option ℚ := none
  revenue_breakdown : List (String × ℚ) := []
  total_expenses : Option ℚ := none
  expenses_breakdown : ExpensesBreakdown := {}
  ebitda : Option ℚ := none
  amortization_depreciation : Option ℚ := none
  free_cash_flow : Option ℚ := none
  capex : Option ℚ := none
  operating_earnings : Option ℚ := none
  operating_earnings_percent_revenue : ℚ := 0
  total_external_costs : Option ℚ := none
  external_cost_breakdown : ExternalCostBreakdown := {}
  earnings : Option ℚ := none
  earnings_percent_revenue : ℚ := 0
  dividend_paid : ℚ := 0
  dividend_paid_pct_fcf : Option ℚ := none
  share_buybacks_from_stmt_cf : ℚ := 0
  net_biz_acquisition : ℚ := 0
deriving DecidableEq

/-- Python `revenue_segmentation.get(year, ...)` with an empty-dict default. -/
def segLookup (rs : List (ℤ × List (String × ℚ))) (y : ℤ) : List (String × ℚ) :=
  ((rs.find? (fun p => p.1 == y)).map Prod.snd).getD []

/-- The loop body of `_process_profit_description` for one year whose income
statement was found.  Every numeric field is passed through from the income
statement dictionary (optionally `0`-defaulted), including `ebitda` and
`totalExpenses`; `dividendsPaid` and `stockRepurchased` are passed through
WITHOUT `abs`. -/
def build_profit_desc_data (income_stmt : IncomeStmt)
    (revenue_breakdown : List (String × ℚ)) : ProfitDescriptionData :=
  { total_revenues := income_stmt.revenue
    revenue_breakdown := revenue_breakdown
    total_expenses := income_stmt.totalExpenses
    expenses_breakdown :=
      { cost_of_revenue := income_stmt.costOfRevenue
        research_and_development := income_stmt.researchAndDevelopment
        selling_marketing_general_admin := income_stmt.sellingAndMarketingExpenses }
    ebitda := income_stmt.ebitda
    amortization_depreciation := income_stmt.depreciationAndAmortization
    free_cash_flow := income_stmt.freeCashFlow
    capex := income_stmt.capitalExpenditure
    operating_earnings := income_stmt.operatingIncome
    operating_earnings_percent_revenue := round2 (income_stmt.operatingIncomeRatioV.getD 0 * 100)
    total_external_costs := income_stmt.totalOtherIncomeExpensesNet
    external_cost_breakdown :=
      { income_taxes := income_stmt.incomeTaxExpense
        interest_and_other_income := income_stmt.interestIncome }
    earnings := income_stmt.netIncome
    earnings_percent_revenue := round2 (income_stmt.netIncomeRatioV.getD 0 * 100)
    dividend_paid := income_stmt.dividendsPaid.getD 0
    dividend_paid_pct_fcf := none
    share_buybacks_from_stmt_cf := income_stmt.stockRepurchased.getD 0
    net_biz_acquisition := income_stmt.acquisitionsNet.getD 0 }

/-- The characteristics dictionary as constructed by
`_calculate_profit_description_characteristics` (which returns the raw
dictionary; only `_process_profit_description` later tries — and fails — to
pour it into the stale `models.ProfitDescriptionCharacteristics` dataclass,
whose field names differ).  A `none` field is an absent key (the source only
stores non-`None` CAGRs; `compute_cagr` yields `None` only for an empty
series). -/
structure ProfitDescriptionCharacteristics where
  cagr_revenues_percent : Option ℚ := none
  cagr_total_expenses_percent : Option ℚ := none
  cagr_ebitda_percent : Option ℚ := none
  cagr_free_cash_flow_percent : Option ℚ := none
  cagr_operating_earnings_percent : Option ℚ := none
  cagr_total_external_costs_percent : Option ℚ := none
  cagr_earnings_percent : Option ℚ := none
  cagr_cost_of_revenue_percent : Option ℚ := none
  cagr_research_and_development_percent : Option ℚ := none
  cagr_selling_marketing_general_admin_percent : Option ℚ := none
  cagr_income_taxes_percent : Option ℚ := none
  cagr_interest_and_other_income_percent : Option ℚ := none
  cagr_revenues_breakdown_percent : List (String × Option ℚ) := []
  cagr_external_costs_breakdown_percent : Option ℚ × Option ℚ := (none, none)
deriving DecidableEq

/-- The `(year, field)` time series of one income-statement field over the
requested years, skipping years with no resolvable income statement. -/
def metric_series (income_statements : List IncomeStmt) (years : List ℤ)
    (f : IncomeStmt → Option ℚ) : List (ℤ × Option ℚ) :=
  years.filterMap (fun y =>
    (find_statement_for_year IncomeStmt.date income_statements y).map
      (fun s => (y, f s)))

/-- Embedding of `_calculate_profit_description_characteristics`: one
`compute_cagr` per metric series, in the dictionary insertion order of the
source, then the per-segment revenue CAGR map, then the external-costs pair
(refering to the income-tax and interest CAGRs already computed). -/
def calculate_profit_description_characteristics (pw : ℚ → ℤ → Option ℚ)
    (income_statements : List IncomeStmt) (rs : List (ℤ × List (String × ℚ)))
    (years : List ℤ) : Except String ProfitDescriptionCharacteristics := do
  let c_revenues ← compute_cagr pw (metric_series income_statements years (fun s => s.revenue))
  let c_total_expenses ← compute_cagr pw (metric_series income_statements years (fun s => s.totalExpenses))
  let c_ebitda ← compute_cagr pw (metric_series income_statements years (fun s => s.ebitda))
  let c_fcf ← compute_cagr pw (metric_series income_statements years (fun s => s.freeCashFlow))
  let c_op ← compute_cagr pw (metric_series income_statements years (fun s => s.operatingIncome))
  let c_ext ← compute_cagr pw (metric_series income_statements years (fun s => s.totalOtherIncomeExpensesNet))
  let c_earn ← compute_cagr pw (metric_series income_statements years (fun s => s.netIncome))
  let c_cor ← compute_cagr pw (metric_series income_statements years (fun s => s.costOfRevenue))
  let c_rnd ← compute_cagr pw (metric_series income_statements years (fun s => s.researchAndDevelopment))
  let c_sga ← compute_cagr pw (metric_series income_statements years (fun s => s.sellingAndMarketingExpenses))
  let c_tax ← compute_cagr pw (metric_series income_statements years (fun s => s.incomeTaxExpense))
  let c_int ← compute_cagr pw (metric_series income_statements years (fun s => s.interestIncome))
  let breakdown ← compute_revenue_breakdown_cagr pw rs
  .ok { cagr_revenues_percent := c_revenues
        cagr_total_expenses_percent := c_total_expenses
        cagr_ebitda_percent := c_ebitda
        cagr_free_cash_flow_percent := c_fcf
        cagr_operating_earnings_percent := c_op
        cagr_total_external_costs_percent := c_ext
        cagr_earnings_percent := c_earn
        cagr_cost_of_revenue_percent := c_cor
        cagr_research_and_development_percent := c_rnd
        cagr_selling_marketing_general_admin_percent := c_sga
        cagr_income_taxes_percent := c_tax
        cagr_interest_and_other_income_percent := c_int
        cagr_revenues_breakdown_percent := breakdown
        cagr_external_costs_breakdown_percent := (c_tax, c_int) }

structure ProfitDescription where
  profit_description_characteristics : ProfitDescriptionCharacteristics := {}
  data : List (ℤ × ProfitDescriptionData) := []
deriving DecidableEq

/-- Embedding of `_process_profit_description`: the per-year data map (years
with no income statement are skipped; each `ProfitDescriptionData` record
constructs fine) is built first, then the characteristics dictionary — whose
computation can raise in a CAGR percent wrapper — and finally
`ProfitDescriptionCharacteristics(**characteristics)` (line 376) is called.
That call ALWAYS raises `TypeError`: the dictionary key
`cagr_external_costs_breakdown_percent` is set unconditionally (line 553)
and is not a field of the `models.py` dataclass (nor are
`cagr_income_taxes_percent` / `cagr_interest_and_other_income_percent`; the
kwarg CPython names in the message depends on which keys were set, which the
modelled message leaves out).  The method therefore never returns. -/
def process_profit_description (pw : ℚ → ℤ → Option ℚ)
    (income_statements : List IncomeStmt) (rs : List (ℤ × List (String × ℚ)))
    (years : List ℤ) : Except String ProfitDescription :=
  let _data := years.filterMap (fun y =>
    (find_statement_for_year IncomeStmt.date income_statements y).map
      (fun stmt => (y, build_profit_desc_data stmt (segLookup rs y))))
  match calculate_profit_description_characteristics pw income_statements rs years with
  | .error e => .error e
  | .ok _ch =>
    .error "TypeError: init of ProfitDescriptionCharacteristics got an unexpected keyword argument"

/-! ## Balance sheet (`_process_balance_sheet`) -/

structure AssetsBreakdown where
  cash_and_cash_equivalents : Option ℚ := none
  short_term_investment : Option ℚ := none
  accounts_receivable_net : Option ℚ := none
  other_current_assets : Option ℚ := none
  land_property_equipment_net : Option ℚ := none
  goodwill_and_intangible_assets : Option ℚ := none
  other_non_current : Option ℚ := none
  long_term_equity_investment : Option ℚ := none
deriving DecidableEq

structure LiabilitiesBreakdown where
  accounts_payable : Option ℚ := none
  tax_payables : Option ℚ := none
  other_current_liabilities : Option ℚ := none
  deferred_revenue : Option ℚ := none
  short_term_debt : Option ℚ := none
  long_term_debt_minus_capital_lease_obligation : Option ℚ := none
  other_non_current_liabilities : Option ℚ := none
  capital_lease_obligations : Option ℚ := none
deriving DecidableEq

structure ShareholdersEquityBreakdown where
  common_stock : Option ℚ := none
  additional_paid_in_capital : Option ℚ := none
  retained_earnings : Option ℚ := none
  accum_other_comprehensive_income_loss : Option ℚ := none
deriving DecidableEq

structure BalanceSheetData where
  total_assets : Option ℚ := none
  assets_breakdown : AssetsBreakdown := {}
  total_liabilities : Option ℚ := none
  liabilities_breakdown : LiabilitiesBreakdown := {}
  total_shareholders_equity : Option ℚ := none
  shareholders_equity_breakdown : ShareholdersEquityBreakdown := {}
deriving DecidableEq

structure BalanceSheetCharacteristics where
  cagr_total_assets_percent : Option ℚ := none
  cagr_total_liabilities_percent : Option ℚ := none
  cagr_total_shareholders_equity_percent : Option ℚ := none
deriving DecidableEq

structure BalanceSheet where
  balance_sheet_characteristics : BalanceSheetCharacteristics := {}
  data : List (ℤ × BalanceSheetData) := []
deriving DecidableEq

/-- The loop body of `_process_balance_sheet` for one resolved balance sheet. -/
def build_balance_sheet_data (bs : BalanceStmt) : BalanceSheetData :=
  { total_assets := bs.totalAssets
    assets_breakdown :=
      { cash_and_cash_equivalents := bs.cashAndCashEquivalents
        short_term_investment := bs.shortTermInvestments
        accounts_receivable_net := bs.netReceivables
        other_current_assets := bs.otherCurrentAssets
        land_property_equipment_net := bs.propertyPlantEquipmentNet
        goodwill_and_intangible_assets := bs.goodwill
        other_non_current := bs.otherNonCurrentAssets
        long_term_equity_investment := bs.longTermInvestments }
    total_liabilities := bs.totalLiabilities
    liabilities_breakdown :=
      { accounts_payable := bs.accountPayables
        tax_payables := bs.taxPayables
        other_current_liabilities := bs.otherCurrentLiabilities
        deferred_revenue := bs.deferredRevenue
        short_term_debt := bs.shortTermDebt
        long_term_debt_minus_capital_lease_obligation := bs.longTermDebt
        other_non_current_liabilities := bs.otherNonCurrentLiabilities
        capital_lease_obligations := bs.capitalLeaseObligations }
    total_shareholders_equity := bs.totalStockholdersEquity
    shareholders_equity_breakdown :=
      { common_stock := bs.commonStock
        additional_paid_in_capital := bs.additionalPaidInCapital
        retained_earnings := bs.retainedEarnings
        accum_other_comprehensive_income_loss := bs.accumulatedOtherComprehensiveIncomeLoss } }

/-- The `(year, field)` time series of one balance-sheet field. -/
def balance_metric_series (balance_sheets : List BalanceStmt) (years : List ℤ)
    (f : BalanceStmt → Option ℚ) : List (ℤ × Option ℚ) :=
  years.filterMap (fun y =>
    (find_statement_for_year BalanceStmt.date balance_sheets y).map
      (fun s => (y, f s)))

/-- Embedding of `_calculate_balance_sheet_characteristics`. -/
def calculate_balance_sheet_characteristics (pw : ℚ → ℤ → Option ℚ)
    (balance_sheets : List BalanceStmt) (years : List ℤ) :
    Except String BalanceSheetCharacteristics := do
  let c_assets ← compute_cagr pw (balance_metric_series balance_sheets years (fun s => s.totalAssets))
  let c_liab ← compute_cagr pw (balance_metric_series balance_sheets years (fun s => s.totalLiabilities))
  let c_eq ← compute_cagr pw (balance_metric_series balance_sheets years (fun s => s.totalStockholdersEquity))
  .ok { cagr_total_assets_percent := c_assets
        cagr_total_liabilities_percent := c_liab
        cagr_total_shareholders_equity_percent := c_eq }

/-- Embedding of `_process_balance_sheet`. -/
def process_balance_sheet (pw : ℚ → ℤ → Option ℚ)
    (balance_sheets : List BalanceStmt) (years : List ℤ) :
    Except String BalanceSheet := do
  let data := years.filterMap (fun y =>
    (find_statement_for_year BalanceStmt.date balance_sheets y).map
      (fun bs => (y, build_balance_sheet_data bs)))
  let ch ← calculate_balance_sheet_characteristics pw balance_sheets years
  .ok { balance_sheet_characteristics := ch, data := data }

/-! ## Studies (`_process_studies`) -/

/-- Embedding of `models.AnalysisOfDebtLevels`; the two ratio fields carry a `V` suffix. -/
structure AnalysisOfDebtLevels where
  total_debt : Option ℚ := none
  total_capital : Option ℚ := none
  total_debt_ratioV : Option ℚ := none
  lt_debt : Option ℚ := none
  net_income : Option ℚ := none
  lt_capital : Option ℚ := none
  lt_debt_ratioV : Option ℚ := none
  years_payback_total_debt : Option ℚ := none
  years_payback_lt_debt : Option ℚ := none
  addback : Option ℚ := none
  years_payback : Option ℚ := none
deriving DecidableEq

structure Studies where
  total_debt_capital : AnalysisOfDebtLevels := {}
  long_term_debt : AnalysisOfDebtLevels := {}
  net_income_payback : AnalysisOfDebtLevels := {}
  addback_net_inc_payback : AnalysisOfDebtLevels := {}
deriving DecidableEq

/-- Embedding of `_process_studies`.  `max(years)` on an empty list raises
`ValueError`; a missing latest balance sheet or income statement returns an
empty `Studies()`.  All `x or 0` coalescing in the source collapses to the
`0`-defaulted dictionary reads of this model.  The `yoy_financial_data`
argument of the source method is unused by its body and omitted here. -/
def process_studies (balance_sheets : List BalanceStmt)
    (income_statements : List IncomeStmt) (years : List ℤ) :
    Except String Studies :=
  match years.max? with
  | none => .error "ValueError: max() arg is an empty sequence"
  | some latest_year =>
    match find_statement_for_year BalanceStmt.date balance_sheets latest_year,
          find_statement_for_year IncomeStmt.date income_statements latest_year with
    | some latest_bs, some latest_income =>
      let total_debt := latest_bs.shortTermDebt.getD 0 + latest_bs.longTermDebt.getD 0
      let total_capital := total_debt + latest_bs.totalStockholdersEquity.getD 0
      let total_debt_r := if total_capital ≠ 0 then some (total_debt / total_capital * 100) else none
      let lt_debt := latest_bs.longTermDebt.getD 0
      let lt_capital := lt_debt + latest_bs.totalStockholdersEquity.getD 0
      let lt_debt_r := if lt_capital ≠ 0 then some (lt_debt / lt_capital * 100) else none
      let net_income := latest_income.netIncome.getD 0
      let years_payback_total_debt := if net_income ≠ 0 then some (total_debt / net_income) else none
      let years_payback_lt_debt := if net_income ≠ 0 then some (lt_debt / net_income) else none
      let addback := net_income + latest_income.depreciationAndAmortization.getD 0
      let years_payback_addback := if addback ≠ 0 then some (lt_debt / addback) else none
      .ok { total_debt_capital :=
              { total_debt := some total_debt
                total_capital := some total_capital
                total_debt_ratioV := total_debt_r }
            long_term_debt :=
              { lt_debt := some lt_debt
                lt_capital := some lt_capital
                lt_debt_ratioV := lt_debt_r }
            net_income_payback :=
              { total_debt := some total_debt
                net_income := some net_income
                years_payback_total_debt := years_payback_total_debt
                lt_debt := some lt_debt
                years_payback_lt_debt := years_payback_lt_debt }
            addback_net_inc_payback :=
              { lt_debt := some lt_debt
                net_income := some net_income
                addback := some addback
                years_payback := years_payback_addback } }
    | _, _ => .ok {}

/-! ## Analyses section and orchestration (`process_company_data`) -/

structure AnalysesYoYData where
  revenues : Option ℚ := none
  sales_per_share : Option ℚ := none
  operating_margin_pct : Option ℚ := none
  tax_rate : Option ℚ := none
  depreciation : Option ℚ := none
  depreciation_pct : Option ℚ := none
deriving DecidableEq

structure InvestmentCharacteristicsSection where
  earnings_analysis : InvestmentCharacteristics := {}
  use_of_earnings_analysis : UseOfEarningsAnalysis := {}
  sales_analysis : SalesAnalysis := {}
  sales_analysis_last_5_years : SalesAnalysis := {}
deriving DecidableEq

structure Analyses where
  investment_characteristics : InvestmentCharacteristicsSection := {}
  data : List (ℤ × AnalysesYoYData) := []
deriving DecidableEq

/-- Embedding of `FinancialDataProcessor._process_analyses`. -/
def process_analyses (pw : ℚ → ℤ → Option ℚ) (yoy : List (ℤ × FinancialData)) :
    Except String Analyses := do
  let earnings_analysis ← compute_earnings_analysis pw yoy
  let use_of_earnings := compute_use_of_earnings_analysis yoy
  let sales_analysis ← compute_sales_analysis pw yoy
  let sales_analysis_5y ← compute_sales_analysis_last_5_years pw yoy
  let data := yoy.map (fun p =>
    (p.1, { revenues := p.2.revenues
            sales_per_share := p.2.sales_per_share
            operating_margin_pct := p.2.operating_margin
            tax_rate := p.2.tax_rate
            depreciation := p.2.depreciation
            depreciation_pct := p.2.depreciation_pct : AnalysesYoYData }))
  .ok { investment_characteristics :=
          { earnings_analysis := earnings_analysis
            use_of_earnings_analysis := use_of_earnings
            sales_analysis := sales_analysis
            sales_analysis_last_5_years := sales_analysis_5y }
        data := data }

/-- Embedding of `models.CompanyProfile` (all provider strings optional). The
`transform_company_profile` step is a plain field-for-field copy of the raw
profile dictionary and is inlined into this record. -/
structure CompanyProfile where
  symbol : Option String := none
  company_name : Option String := none
  exchange : Option String := none
  description : Option String := none
  sector : Option String := none
  industry : Option String := none
deriving DecidableEq

structure CompanyDescription where
  fiscal_year_end : String := ""
  stock_price : ℚ := 0
  market_cap : ℤ := 0
  yoy_financial_data : List (ℤ × FinancialData) := []
deriving DecidableEq

/-- Python `int(x)` on a rational: truncation toward zero. -/
def truncQ (q : ℚ) : ℤ :=
  q.num / (q.den : ℤ)

/-- Embedding of `_get_market_cap`: the `marketCap` of the first key-metrics
entry, `0`-defaulted, truncated to an integer; `0` when the list is empty. -/
def get_market_cap (key_metrics : List KeyMetricStmt) : ℤ :=
  match key_metrics.head? with
  | some latest => truncQ (latest.marketCap.getD 0)
  | none => 0

/-- Embedding of `DataTransformer.transform_company_description`
(`fiscal_year_end or "12-31"`: an empty provider string falls back). -/
def transform_company_description (fiscal_year_end : String) (stock_price : ℚ)
    (market_cap : ℤ) (yoy : List (ℤ × FinancialData)) : CompanyDescription :=
  { fiscal_year_end := if fiscal_year_end = "" then "12-31" else fiscal_year_end
    stock_price := stock_price
    market_cap := market_cap
    yoy_financial_data := yoy }

structure Metrics where
  company_profile : CompanyProfile := {}
  company_description : CompanyDescription := {}
  analyses : Analyses := {}
  profit_description : ProfitDescription := {}
  balance_sheet : BalanceSheet := {}
  studies : Studies := {}
deriving DecidableEq

/-- Python `list(range(start_year, end_year + 1))`. -/
def yearsRange (a b : ℤ) : List ℤ :=
  (List.range (b + 1 - a).toNat).map (fun i => a + i)

/-- Steps 7-13 of `process_company_data`, given the year → record map from
step 6: company description, analyses, profit description, balance sheet,
studies and the recomputed profit-description characteristics, each
propagating its exception. -/
def process_company_data_with_yoy (pw : ℚ → ℤ → Option ℚ)
    (profile : CompanyProfile) (fiscal_year_end : String)
    (income_statements : List IncomeStmt) (balance_sheets : List BalanceStmt)
    (key_metrics : List KeyMetricStmt) (rs : List (ℤ × List (String × ℚ)))
    (current_stock_price : ℚ) (years : List ℤ)
    (yoy : List (ℤ × FinancialData)) : Except String Metrics :=
  let company_description := transform_company_description fiscal_year_end
        current_stock_price (get_market_cap key_metrics) yoy
  match process_analyses pw yoy with
  | .error e => .error e
  | .ok analyses =>
    match process_profit_description pw income_statements rs years with
    | .error e => .error e
    | .ok profit_description =>
      match process_balance_sheet pw balance_sheets years with
      | .error e => .error e
      | .ok balance_sheet =>
        match process_studies balance_sheets income_statements years with
        | .error e => .error e
        | .ok studies =>
          match calculate_profit_description_characteristics pw
                  income_statements rs years with
          | .error e => .error e
          | .ok _pdc =>
            .ok { company_profile := profile
                  company_description := company_description
                  analyses := analyses
                  profit_description := profit_description
                  balance_sheet := balance_sheet
                  studies := studies }

/-- Embedding of `FinancialDataProcessor.process_company_data`, from the
point where all provider data has been fetched (network retrieval is an
external collaborator; the fetched lists, segmentation, profile, fiscal-year
string, current stock price and the Yahoo yearly price lookups are inputs).
`end_year` is the fiscal year derived from the wall clock by
`derive_fiscal_year`, likewise an input.  Steps: validate the year range
(raising `ValueError` when `start_year > end_year`), build the year → record
map, the company description, the analyses, the profit description, the
balance sheet and the studies, then recompute the profit-description
characteristics for the JSON formatter (formatting and saving are I/O, out
of scope).  Any exception propagates and aborts the run — note that with the
stale dataclasses the chain can never get past the profit-description stage
(`process_profit_description` always raises), so the later stages are dead
code kept for structural fidelity and the function returns `.ok` on no
input with a valid year range. -/
def process_company_data (pw : ℚ → ℤ → Option ℚ) (start_year end_year : ℤ)
    (profile : CompanyProfile) (fiscal_year_end : String)
    (income_statements : List IncomeStmt) (balance_sheets : List BalanceStmt)
    (cash_flows : List CashFlowStmt) (key_metrics : List KeyMetricStmt)
    (rs : List (ℤ × List (String × ℚ))) (current_stock_price : ℚ)
    (priceHigh priceLow : ℤ → Option ℚ) : Except String Metrics :=
  if start_year > end_year then
    .error "ValueError: START_YEAR cannot be greater than END_YEAR."
  else
    match process_yoy_financial_data (yearsRange start_year end_year)
            income_statements balance_sheets cash_flows key_metrics
            priceHigh priceLow with
    | .error e => .error e
    | .ok yoy =>
      process_company_data_with_yoy pw profile fiscal_year_end income_statements
        balance_sheets key_metrics rs current_stock_price
        (yearsRange start_year end_year) yoy

/-! ## Shared helpers for the theorems -/

/-- A stand-in power function for concrete evaluations (the structure of all
claims is independent of the numeric values the float power produces). -/
def pwId : ℚ → ℤ → Option ℚ := fun base _ => some base

/-- Strictly ascending years of a series. -/
def yearsStrictAsc : List (ℤ × Option ℚ) → Bool
  | [] => true
  | [_] => true
  | p :: q :: rest => p.1 < q.1 && yearsStrictAsc (q :: rest)

lemma yearsStrictAsc_tail {x : ℤ × Option ℚ} {s : List (ℤ × Option ℚ)}
    (h : yearsStrictAsc (x :: s) = true) : yearsStrictAsc s = true := by
  cases s with
  | nil => rfl
  | cons q t =>
    have h' : (decide (x.1 < q.1) && yearsStrictAsc (q :: t)) = true := h
    exact ((Bool.and_eq_true _ _).mp h').2

lemma yearsStrictAsc_head_lt {x q : ℤ × Option ℚ} {t : List (ℤ × Option ℚ)}
    (h : yearsStrictAsc (x :: q :: t) = true) : x.1 < q.1 := by
  have := (Bool.and_eq_true _ _).mp h
  exact of_decide_eq_true this.1

lemma lastYear_cons {x : ℤ × Option ℚ} {s : List (ℤ × Option ℚ)} (h : s ≠ []) :
    lastYear (x :: s) = lastYear s := by
  cases s with
  | nil => exact absurd rfl h
  | cons y t =>
    unfold lastYear
    rw [List.map_cons, List.map_cons, List.getLast?_cons_cons]

lemma lastVal_cons {x : ℤ × Option ℚ} {s : List (ℤ × Option ℚ)} (h : s ≠ []) :
    lastVal (x :: s) = lastVal s := by
  cases s with
  | nil => exact absurd rfl h
  | cons y t =>
    unfold lastVal
    rw [List.map_cons, List.map_cons, List.getLast?_cons_cons]

lemma firstYear_cons (x : ℤ × Option ℚ) (s : List (ℤ × Option ℚ)) :
    firstYear (x :: s) = x.1 := by
  unfold firstYear
  rw [List.map_cons]
  rfl

lemma firstYear_le_lastYear {s : List (ℤ × Option ℚ)} (hne : s ≠ [])
    (hasc : yearsStrictAsc s = true) : firstYear s ≤ lastYear s := by
  induction s with
  | nil => exact absurd rfl hne
  | cons p t ih =>
    cases t with
    | nil => simp [firstYear, lastYear]
    | cons q u =>
      have h1 : p.1 < q.1 := yearsStrictAsc_head_lt hasc
      have h2 : firstYear (q :: u) ≤ lastYear (q :: u) :=
        ih (by simp) (yearsStrictAsc_tail hasc)
      rw [firstYear_cons, lastYear_cons (by simp)]
      rw [firstYear_cons] at h2
      omega

lemma exists_pos_of_cons {x : ℤ × Option ℚ} {s : List (ℤ × Option ℚ)}
    (hx : nonPosO x.2 = true) (hpos : ∃ p ∈ x :: s, nonPosO p.2 = false) :
    ∃ p ∈ s, nonPosO p.2 = false := by
  obtain ⟨p, hp, hnp⟩ := hpos
  rcases List.mem_cons.mp hp with h | h
  · subst h; rw [hx] at hnp; exact absurd hnp (by simp)
  · exact ⟨p, h, hnp⟩

lemma nonPosO_eq_false {o : Option ℚ} (h : nonPosO o = false) :
    ∃ v, o = some v ∧ ¬ v ≤ 0 := by
  cases o with
  | none => simp [nonPosO] at h
  | some v => exact ⟨v, rfl, by simpa [nonPosO] using h⟩

/-- Dropping one leading non-positive pair does not change `calculate_cagr`
on a strictly-ascending series that still contains a positive value. -/
lemma calculate_cagr_cons_nonpos (pw : ℚ → ℤ → Option ℚ) (x : ℤ × Option ℚ)
    (s : List (ℤ × Option ℚ)) (hx : nonPosO x.2 = true)
    (hasc : yearsStrictAsc (x :: s) = true)
    (hpos : ∃ p ∈ s, nonPosO p.2 = false) :
    calculate_cagr pw (x :: s) = calculate_cagr pw s := by
  match s with
  | [] => exact absurd hpos (by simp)
  | [y] =>
    obtain ⟨xy, xv⟩ := x
    obtain ⟨yy, yv⟩ := y
    obtain ⟨p, hp, hnp⟩ := hpos
    rw [List.mem_singleton] at hp
    subst hp
    obtain ⟨v, hv, hvpos⟩ := nonPosO_eq_false hnp
    have hv' : yv = some v := hv
    subst hv'
    have hxy : xy < yy := yearsStrictAsc_head_lt hasc
    have hx' : nonPosO xv = true := hx
    have hnp' : nonPosO (some v) = false := hnp
    have hR : calculate_cagr pw [(yy, some v)] = .ok none := by
      unfold calculate_cagr
      rw [if_pos (by simp)]
    have hL : calculate_cagr pw [(xy, xv), (yy, some v)] = .ok none := by
      unfold calculate_cagr
      rw [if_neg (by simp)]
      rw [if_neg (by simp only [lastYear, firstYear]; simp; omega)]
      rw [show (([(xy, xv), (yy, some v)]).dropWhile (fun q => nonPosO q.2))
            = [(yy, some v)] by
        rw [List.dropWhile_cons]
        rw [if_pos hx']
        rw [List.dropWhile_cons]
        rw [if_neg (by rw [hnp']; simp)]]
      rw [show lastYear [(xy, xv), (yy, some v)] = yy by simp [lastYear]]
      rw [show lastVal [(xy, xv), (yy, some v)] = some v by simp [lastVal]]
      simp [cagr_from_anchor, hvpos]
    rw [hL, hR]
  | p :: q :: t =>
    have hs_ne : (p :: q :: t) ≠ ([] : List (ℤ × Option ℚ)) := by simp
    have htasc : yearsStrictAsc (p :: q :: t) = true := yearsStrictAsc_tail hasc
    have hfl : firstYear (p :: q :: t) < lastYear (p :: q :: t) := by
      have h1 : p.1 < q.1 := yearsStrictAsc_head_lt htasc
      have h2 : firstYear (q :: t) ≤ lastYear (q :: t) :=
        firstYear_le_lastYear (by simp) (yearsStrictAsc_tail htasc)
      rw [firstYear_cons, lastYear_cons (by simp)]
      rw [firstYear_cons] at h2
      omega
    have hxp : x.1 < p.1 := yearsStrictAsc_head_lt hasc
    have hLY : lastYear (x :: p :: q :: t) = lastYear (p :: q :: t) :=
      lastYear_cons hs_ne
    have hLV : lastVal (x :: p :: q :: t) = lastVal (p :: q :: t) :=
      lastVal_cons hs_ne
    have hcL : ¬ (x :: p :: q :: t).length < 2 := by simp
    have hcR : ¬ (p :: q :: t).length < 2 := by simp
    have hpR : ¬ lastYear (p :: q :: t) - firstYear (p :: q :: t) ≤ 0 := by omega
    have hpL : ¬ lastYear (x :: p :: q :: t) - firstYear (x :: p :: q :: t) ≤ 0 := by
      rw [hLY, firstYear_cons]
      rw [firstYear_cons] at hfl
      omega
    unfold calculate_cagr
    rw [if_neg hcL, if_neg hcR, if_neg hpL, if_neg hpR]
    rw [List.dropWhile_cons, if_pos hx, hLY, hLV]

lemma cagr_from_anchor_ok (pw : ℚ → ℤ → Option ℚ) (ly : ℤ) (endV : ℚ)
    (t : List (ℤ × Option ℚ)) : ∃ r, cagr_from_anchor pw ly (some endV) t = .ok r := by
  cases t with
  | nil => exact ⟨none, rfl⟩
  | cons a u =>
    obtain ⟨ay, av⟩ := a
    simp only [cagr_from_anchor]
    by_cases hb : av.getD 0 ≤ 0
    · exact ⟨none, by rw [if_pos hb]⟩
    · rw [if_neg hb]
      by_cases he : endV ≤ 0
      · exact ⟨none, by simp [he]⟩
      · by_cases hp : ly - ay ≤ 0
        · exact ⟨none, by simp [he, hp]⟩
        · cases hpw : pw (endV / av.getD 0) (ly - ay) with
          | some r => exact ⟨some (r - 1), by simp [he, hp, hpw]⟩
          | none => exact ⟨none, by simp [he, hp, hpw]⟩

/-- C4: `calculate_cagr` returns `None` whenever the series has fewer than
two pairs, or `last_year - first_year ≤ 0`, or no value in the series is
strictly positive (every value `None` or `≤ 0`). -/
theorem c4_cagr_degenerate_none (pw : ℚ → ℤ → Option ℚ) (s : List (ℤ × Option ℚ))
    (h : s.length < 2 ∨ lastYear s - firstYear s ≤ 0 ∨ ∀ p ∈ s, nonPosO p.2 = true) :
    calculate_cagr pw s = .ok none := by
  unfold calculate_cagr
  split_ifs with h1 h2
  · rfl
  · rfl
  · have hall : ∀ p ∈ s, nonPosO p.2 = true := by
      rcases h with h | h | h
      · exact absurd h h1
      · exact absurd h h2
      · exact h
    rw [List.dropWhile_eq_nil_iff.mpr (fun x hx => hall x hx)]
    rfl

/-- Witness for C4 at a one-pair series. -/
theorem c4_witness : calculate_cagr pwId [((2020:ℤ), some (5:ℚ))] = .ok none :=
  c4_cagr_degenerate_none pwId _ (Or.inl (by decide))

/-- C2 counterexample: each of the three CAGR entry points can raise.
The raw calculator raises `TypeError` on a series with a positive anchor and
a `None` last value; the percent wrapper raises on a nonempty single-pair
series (`None * 100`); the per-segment breakdown raises on a segment whose
two retained values are both negative. -/
theorem c2_counterexample :
    calculate_cagr pwId [((2020:ℤ), some (5:ℚ)), (2021, none)]
      = .error "TypeError: comparison not supported between NoneType and int" ∧
    compute_cagr pwId [((2020:ℤ), some (5:ℚ))]
      = .error "TypeError: unsupported operand * for NoneType and int" ∧
    compute_revenue_breakdown_cagr pwId [((2020:ℤ), [("segA", (-5:ℚ))]), (2021, [("segA", -3)])]
      = .error "TypeError: unsupported operand * for NoneType and int" :=
  ⟨by decide, by decide, by decide⟩

/-- C2 amended: (1) the raw calculator never raises when the last value of
the series is present (in particular a fault inside the power computation is
caught and mapped to `None`); (2) the percent wrapper raises exactly when
the series is nonempty and the raw calculator returns `None` or itself
raises; (3) the per-segment breakdown never raises provided every segment
series of length at least two has a computable (non-`None`) raw CAGR. -/
theorem c2_amended :
    (∀ (pw : ℚ → ℤ → Option ℚ) (s : List (ℤ × Option ℚ)),
        (lastVal s).isSome = true → ∃ r, calculate_cagr pw s = .ok r) ∧
    (∀ (pw : ℚ → ℤ → Option ℚ) (s : List (ℤ × Option ℚ)),
        (∃ e, compute_cagr pw s = .error e) ↔
          s ≠ [] ∧ (calculate_cagr pw s = .ok none ∨ ∃ e, calculate_cagr pw s = .error e)) ∧
    (∀ (pw : ℚ → ℤ → Option ℚ) (rs : List (ℤ × List (String × ℚ))) (segs : List String),
        (∀ seg ∈ segs, 2 ≤ (sortPairs (segSeries rs seg)).length →
          ∃ v, calculate_cagr pw (sortPairs (segSeries rs seg)) = .ok (some v)) →
        ∃ m, revenue_breakdown_entries pw rs segs = .ok m) := by
  refine ⟨?_, ?_, ?_⟩
  · intro pw s hlast
    obtain ⟨endV, hEnd⟩ := Option.isSome_iff_exists.mp hlast
    unfold calculate_cagr
    split_ifs with h1 h2
    · exact ⟨none, rfl⟩
    · exact ⟨none, rfl⟩
    · rw [hEnd]
      exact cagr_from_anchor_ok pw _ endV _
  · intro pw s
    unfold compute_cagr
    by_cases hs : s.isEmpty
    · have hnil : s = [] := List.isEmpty_iff.mp hs
      simp [hs, hnil]
    · have hne : s ≠ [] := by
        intro hcon
        exact hs (by simp [hcon])
      rw [if_neg hs]
      cases hres : calculate_cagr pw s with
      | ok r =>
        cases r with
        | some v => simp [hne]
        | none => simp [hne]
      | error e => simp [hne]
  · intro pw rs segs
    induction segs with
    | nil => intro _; exact ⟨[], rfl⟩
    | cons seg rest ih =>
      intro h
      obtain ⟨m, hm⟩ := ih (fun sg hsg h2 => h sg (List.mem_cons_of_mem _ hsg) h2)
      unfold revenue_breakdown_entries
      by_cases h2 : 2 ≤ (sortPairs (segSeries rs seg)).length
      · obtain ⟨v, hv⟩ := h seg (List.mem_cons_self _ _) h2
        rw [if_pos h2, hv, hm]
        exact ⟨_, rfl⟩
      · rw [if_neg h2, hm]
        exact ⟨_, rfl⟩

/-- Witness for C2 (amended): the raw calculator returns normally on a
series whose last value is present. -/
theorem c2_witness :
    ∃ r, calculate_cagr pwId [((2020:ℤ), some (1:ℚ)), (2021, some 2)] = .ok r :=
  c2_amended.1 pwId _ (by decide)

/-- C5: on a series with strictly ascending years containing at least one
strictly positive value, `calculate_cagr` is invariant under dropping the
leading non-positive (or `None`) prefix — the whole-series CAGR equals the
CAGR of the suffix starting at the first strictly positive value; in
particular on the series of the claim. -/
theorem c5_cagr_anchor_invariant :
    (∀ (pw : ℚ → ℤ → Option ℚ) (s : List (ℤ × Option ℚ)),
        yearsStrictAsc s = true → (∃ p ∈ s, nonPosO p.2 = false) →
        calculate_cagr pw s
          = calculate_cagr pw (s.dropWhile (fun p => nonPosO p.2))) ∧
    (∀ pw : ℚ → ℤ → Option ℚ,
        calculate_cagr pw [((2019:ℤ), some (-5:ℚ)), (2020, some 10), (2021, some 20)]
          = calculate_cagr pw [((2020:ℤ), some (10:ℚ)), (2021, some 20)]) := by
  have main : ∀ (pw : ℚ → ℤ → Option ℚ) (s : List (ℤ × Option ℚ)),
      yearsStrictAsc s = true → (∃ p ∈ s, nonPosO p.2 = false) →
      calculate_cagr pw s = calculate_cagr pw (s.dropWhile (fun p => nonPosO p.2)) := by
    intro pw s
    induction s with
    | nil =>
      intro _ h
      exact absurd h (by simp)
    | cons x t ih =>
      intro hasc hpos
      by_cases hx : nonPosO x.2 = true
      · rw [List.dropWhile_cons, if_pos hx]
        have hpos' := exists_pos_of_cons hx hpos
        rw [calculate_cagr_cons_nonpos pw x t hx hasc hpos']
        exact ih (yearsStrictAsc_tail hasc) hpos'
      · rw [List.dropWhile_cons, if_neg hx]
  refine ⟨main, ?_⟩
  intro pw
  have h := main pw [((2019:ℤ), some (-5:ℚ)), (2020, some 10), (2021, some 20)]
    (by decide) ⟨(2020, some 10), by decide, by decide⟩
  rw [h]
  rfl

/-- Witness for C5 at the series of the claim. -/
theorem c5_witness :
    calculate_cagr pwId [((2019:ℤ), some (-5:ℚ)), (2020, some 10), (2021, some 20)]
      = calculate_cagr pwId
          (([((2019:ℤ), some (-5:ℚ)), (2020, some 10), (2021, some 20)]).dropWhile
            (fun p => nonPosO p.2)) :=
  c5_cagr_anchor_invariant.1 pwId _ (by decide) ⟨(2020, some 10), by decide, by decide⟩

/-- A concrete income statement resolvable for 2020. -/
def incC1 : IncomeStmt := { date := "2020-12-31", revenue := some 100 }

/-- C1 counterexample: for year 2020 an income statement is resolvable, yet
with no balance sheets and no cash flows the per-year output map does not
contain a record for 2020 — the year is dropped, not degraded to nulls. -/
theorem c1_counterexample :
    (find_statement_for_year IncomeStmt.date [incC1] 2020).isSome = true ∧
    process_yoy_financial_data [2020] [incC1] [] [] [] (fun _ => none) (fun _ => none)
      = .ok [] :=
  ⟨by decide, by decide⟩

lemma buildFinancialData_never_ok (income : IncomeStmt) (balance : BalanceStmt)
    (prev_equity : ℚ) (cash_flow : CashFlowStmt) (key_metric : Option KeyMetricStmt)
    (price_high price_low : Option ℚ) :
    ∃ e, buildFinancialData income balance prev_equity cash_flow key_metric
      price_high price_low = .error e := by
  simp only [buildFinancialData]
  cases operating_eps_expr income with
  | error e => exact ⟨e, rfl⟩
  | ok v => exact ⟨_, rfl⟩

/-- C1 amended: no `YearRecord` ever enters the map.  A year missing its
income, balance-sheet or cash-flow statement is skipped (in particular an
income-resolvable year with a missing balance sheet or cash flow is dropped,
not degraded to nulls, as the counterexample shows); and a year where all
three statements resolve aborts the whole run with a `TypeError` from the
`FinancialData` constructor (six keyword arguments the dataclass does not
declare) or from the undefaulted `operatingIncome` division.  Hence the
processing returns a map only when no requested year resolves all three
statements, and that map is empty. -/
theorem c1_amended :
    (∀ (years : List ℤ) (incs : List IncomeStmt) (bals : List BalanceStmt)
        (cfs : List CashFlowStmt) (kms : List KeyMetricStmt)
        (ph pl : ℤ → Option ℚ) (m : List (ℤ × FinancialData)),
        process_yoy_financial_data years incs bals cfs kms ph pl = .ok m →
        m = [] ∧ ∀ y ∈ years,
          ¬((find_statement_for_year IncomeStmt.date incs y).isSome = true ∧
            (find_statement_for_year BalanceStmt.date bals y).isSome = true ∧
            (find_statement_for_year CashFlowStmt.date cfs y).isSome = true)) ∧
    (∀ (years : List ℤ) (incs : List IncomeStmt) (bals : List BalanceStmt)
        (cfs : List CashFlowStmt) (kms : List KeyMetricStmt)
        (ph pl : ℤ → Option ℚ) (y : ℤ),
        y ∈ years →
        (find_statement_for_year IncomeStmt.date incs y).isSome = true →
        (find_statement_for_year BalanceStmt.date bals y).isSome = true →
        (find_statement_for_year CashFlowStmt.date cfs y).isSome = true →
        ∃ e, process_yoy_financial_data years incs bals cfs kms ph pl = .error e) := by
  constructor
  · intro years incs bals cfs kms ph pl
    induction years with
    | nil =>
      intro m hm
      have hmeq : ([] : List (ℤ × FinancialData)) = m := by
        simpa [process_yoy_financial_data] using hm
      subst hmeq
      exact ⟨rfl, by simp⟩
    | cons year rest ih =>
      intro m hm
      unfold process_yoy_financial_data at hm
      split at hm
      · -- income, balance and cash flow all resolved: the builder raises
        rename_i income balance cash_flow heqI heqB heqC
        obtain ⟨e, he⟩ := buildFinancialData_never_ok income balance
          (get_prev_year_equity bals year) cash_flow
          (find_statement_for_year KeyMetricStmt.date kms year)
          (ph year) (pl year)
        rw [he] at hm
        simp at hm
      · rename_i hno
        obtain ⟨hm0, hrest⟩ := ih m hm
        refine ⟨hm0, ?_⟩
        intro y hy
        rcases List.mem_cons.mp hy with rfl | hy'
        · rintro ⟨h1, h2, h3⟩
          obtain ⟨income, heqI⟩ := Option.isSome_iff_exists.mp h1
          obtain ⟨balance, heqB⟩ := Option.isSome_iff_exists.mp h2
          obtain ⟨cash_flow, heqC⟩ := Option.isSome_iff_exists.mp h3
          exact hno income balance cash_flow heqI heqB heqC
        · exact hrest y hy'
  · intro years incs bals cfs kms ph pl y
    induction years with
    | nil =>
      intro hy
      simp at hy
    | cons year rest ih =>
      intro hy h1 h2 h3
      unfold process_yoy_financial_data
      split
      · rename_i income balance cash_flow heqI heqB heqC
        obtain ⟨e, he⟩ := buildFinancialData_never_ok income balance
          (get_prev_year_equity bals year) cash_flow
          (find_statement_for_year KeyMetricStmt.date kms year)
          (ph year) (pl year)
        rw [he]
        exact ⟨e, rfl⟩
      · rename_i hno
        rcases List.mem_cons.mp hy with rfl | hy'
        · obtain ⟨income, heqI⟩ := Option.isSome_iff_exists.mp h1
          obtain ⟨balance, heqB⟩ := Option.isSome_iff_exists.mp h2
          obtain ⟨cash_flow, heqC⟩ := Option.isSome_iff_exists.mp h3
          exact (hno income balance cash_flow heqI heqB heqC).elim
        · exact ih hy' h1 h2 h3

/-- A complete single-year statement set for fiscal 2020 (shared by the C1
witness and the C9 counterexample). -/
def incC9 : IncomeStmt :=
  { date := "2020-12-31"
    revenue := some 1000
    weightedAverageShsOut := some 10
    operatingIncome := some 100
    netIncome := some 80 }

def balC9 : BalanceStmt := { date := "2020-12-31", totalStockholdersEquity := some 500 }

def cfC9 : CashFlowStmt := { date := "2020-12-31" }

/-- Witness for C1 (amended): a year whose three statements all resolve
aborts the per-year processing. -/
theorem c1_witness :
    ∃ e, process_yoy_financial_data [2020] [incC9] [balC9] [cfC9] []
      (fun _ => none) (fun _ => none) = .error e :=
  c1_amended.2 [2020] [incC9] [balC9] [cfC9] [] (fun _ => none) (fun _ => none) 2020
    (by decide) (by decide) (by decide) (by decide)

/-- A concrete income statement whose `operatingIncome` key is absent while
shares outstanding are nonzero. -/
def incC3 : IncomeStmt := { date := "2020-12-31", weightedAverageShsOut := some 10 }

/-- C3 counterexample: with the `operatingIncome` input absent (`None`) and
nonzero shares outstanding, the per-year record builder raises `TypeError`
at the division (evaluated before the constructor call) instead of producing
a record with a null operating EPS. -/
theorem c3_counterexample :
    buildFinancialData incC3 {} 0 {} none none none
      = .error "TypeError: unsupported operand / for NoneType and float" := by decide

/-- C3 amended: each derived-field expression evaluated by the builder
yields null, without raising, whenever its denominator (missing inputs
defaulted to 0) is exactly 0 - zero shares outstanding null the
sales-per-share and book-value-per-share expressions and make the
operating-EPS argument `None`; zero revenue nulls the operating margin; zero
income-before-tax nulls the tax rate; zero net income nulls the depreciation
percent; zero average equity nulls ROE; zero total capital nulls ROC - and a
missing numerator is defaulted to 0, not nulled.  The builder itself however
never completes a record: when shares outstanding are nonzero and the
`operatingIncome` key is absent it raises `TypeError` at the division (the
counterexample), and in every other case it raises `TypeError` at the
`FinancialData` constructor, whose six extra keyword arguments the dataclass
does not declare. -/
theorem c3_amended :
    (∀ (income : IncomeStmt) (balance : BalanceStmt),
        income.weightedAverageShsOut.getD 0 = 0 →
        yoy_sales_per_share income = none ∧
        yoy_book_value_per_share income balance = none ∧
        operating_eps_expr income = .ok none) ∧
    (∀ income : IncomeStmt,
        income.revenue.getD 0 = 0 → yoy_operating_margin income = none) ∧
    (∀ income : IncomeStmt,
        income.incomeBeforeTax.getD 0 = 0 → yoy_tax_rate income = none) ∧
    (∀ income : IncomeStmt,
        income.netIncome.getD 0 = 0 → yoy_depreciation_pct income = none) ∧
    (∀ (income : IncomeStmt) (balance : BalanceStmt) (pe : ℚ),
        yoy_avg_equity balance pe = 0 → yoy_roe income balance pe = none) ∧
    (∀ (income : IncomeStmt) (balance : BalanceStmt) (pe : ℚ),
        yoy_avg_equity balance pe + balance.totalDebt.getD 0 = 0 →
        yoy_roc income balance pe = none) ∧
    (∀ (income : IncomeStmt) (balance : BalanceStmt) (pe : ℚ) (cf : CashFlowStmt)
        (km : Option KeyMetricStmt) (ph pl : Option ℚ),
        ∃ e, buildFinancialData income balance pe cf km ph pl = .error e) := by
  refine ⟨?_, ?_, ?_, ?_, ?_, ?_, ?_⟩
  · intro income balance h
    refine ⟨?_, ?_, ?_⟩
    · unfold yoy_sales_per_share
      rw [if_neg (by simpa using h)]
    · unfold yoy_book_value_per_share
      rw [if_neg (by simpa using h)]
    · unfold operating_eps_expr
      rw [if_neg (by simpa using h)]
  · intro income h
    unfold yoy_operating_margin
    rw [if_neg (by simpa using h)]
  · intro income h
    unfold yoy_tax_rate
    rw [if_neg (by simpa using h)]
  · intro income h
    unfold yoy_depreciation_pct
    rw [if_neg (by simpa using h)]
  · intro income balance pe h
    unfold yoy_roe
    rw [if_neg (by simpa using h)]
  · intro income balance pe h
    unfold yoy_roc
    rw [if_neg (by simpa using h)]
  · intro income balance pe cf km ph pl
    exact buildFinancialData_never_ok income balance pe cf km ph pl

/-- Witness for C3 (amended) at an all-absent income statement (shares
default to 0): the derived expressions are null and the operating-EPS
argument is `None`. -/
theorem c3_witness :
    yoy_sales_per_share {} = none ∧
    yoy_book_value_per_share {} {} = none ∧
    operating_eps_expr {} = .ok none :=
  c3_amended.1 {} {} (by decide)

/-! ## C6: use-of-earnings aggregation policies -/

/-- The amended payout policy (claim wording corrected to the truthiness
filter of the source): mean over years of the per-year percent ratio
`dividends_per_share / operating_eps * 100`, restricted to years where BOTH
operands are nonzero and present, then rounded to two decimals. -/
def amended_avg_dividend_payout_percent (yoy : List (ℤ × FinancialData)) : Option ℚ :=
  let ratios := yoy.filterMap (fun p =>
    if truthyQ p.2.dividends_per_share ∧ truthyQ p.2.operating_eps then
      some (p.2.dividends_per_share.getD 0 / p.2.operating_eps.getD 0 * 100)
    else none)
  if ratios ≠ [] then some (round2 (ratios.sum / ratios.length)) else none

/-- The amended buyback policy: the cash-weighted ratio of sums
`sum(buybacks) / sum(net_profits) * 100`, the numerator summed over years
with nonzero buyback and the denominator over years with nonzero net income,
filtered independently; `None` when either filtered list is empty or the
denominator sum is zero. -/
def amended_avg_stock_buyback_percent (yoy : List (ℤ × FinancialData)) : Option ℚ :=
  let buybacks := yoy.filterMap (fun p =>
    if truthyQ p.2.buyback then some (p.2.buyback.getD 0) else none)
  let net_profits := yoy.filterMap (fun p =>
    if truthyQ p.2.net_profit then some (p.2.net_profit.getD 0) else none)
  if buybacks ≠ [] ∧ net_profits ≠ [] then
    if net_profits.sum ≠ 0 then
      some (round2 (buybacks.sum / net_profits.sum * 100))
    else none
  else none

/-- Two years with a dividend paid out of positive operating EPS, the second
year with a zero (but present) dividend per share. -/
def fdC6c : FinancialData := { dividends_per_share := some 2, operating_eps := some 4 }
def fdC6d : FinancialData := { dividends_per_share := some 0, operating_eps := some 4 }

set_option maxRecDepth 8000 in
/-- C6 counterexample: the claim restricts the payout average to years where
both operands are present and `operating_eps != 0`; the source additionally
drops years whose dividends-per-share is zero.  On a dataset with a present
zero dividend year the source yields 50% while the claimed formula yields
25%. -/
theorem c6_counterexample :
    (compute_use_of_earnings_analysis
        [(2020, fdC6c), (2021, fdC6d)]).avg_dividend_payout_percent = some 50 ∧
    claim_avg_dividend_payout_percent [(2020, fdC6c), (2021, fdC6d)] = some 25 ∧
    (50:ℚ) ≠ 25 := by
  refine ⟨?_, ?_, by norm_num⟩
  · with_unfolding_all decide
  · with_unfolding_all decide

/-- Two years where the payout operands and the buyback operands coincide
(`dividends_per_share = buyback`, `operating_eps = net_profit`), with
diverging per-year and aggregate ratios (50% and 10% yearly; 2/12 overall). -/
def fdC6a : FinancialData := { dividends_per_share := some 1, operating_eps := some 2,
                               buyback := some 1, net_profit := some 2 }
def fdC6b : FinancialData := { dividends_per_share := some 1, operating_eps := some 10,
                               buyback := some 1, net_profit := some 10 }

set_option maxRecDepth 8000 in
/-- C6 amended: the payout percent is the mean of per-year ratios over years
where both operands are nonzero; the buyback percent is the ratio of
independently filtered sums; the two aggregation policies differ — on a
dataset where both metrics consume the very same operand series, the payout
average is 30% while the buyback ratio is 16.67%. -/
theorem c6_amended :
    (∀ yoy : List (ℤ × FinancialData),
        (compute_use_of_earnings_analysis yoy).avg_dividend_payout_percent
          = amended_avg_dividend_payout_percent yoy) ∧
    (∀ yoy : List (ℤ × FinancialData),
        (compute_use_of_earnings_analysis yoy).avg_stock_buyback_percent
          = amended_avg_stock_buyback_percent yoy) ∧
    ((compute_use_of_earnings_analysis
        [(2020, fdC6a), (2021, fdC6b)]).avg_dividend_payout_percent = some 30 ∧
      (compute_use_of_earnings_analysis
        [(2020, fdC6a), (2021, fdC6b)]).avg_stock_buyback_percent = some (1667/100) ∧
      (30:ℚ) ≠ 1667/100) := by
  refine ⟨fun _ => rfl, fun _ => rfl, ?_, ?_, by norm_num⟩
  · with_unfolding_all decide
  · with_unfolding_all decide

/-! ## C7: profit-description EBITDA and total expenses -/

/-- An income statement whose reported `ebitda` (42) and `totalExpenses`
(77) differ from the values the claimed formulas would derive
(`100 - 10 + 5 = 95` and `10`). -/
def stmtC7 : IncomeStmt :=
  { date := "2020-12-31"
    revenue := some 100
    costOfRevenue := some 10
    depreciationAndAmortization := some 5
    ebitda := some 42
    totalExpenses := some 77 }

/-- C7 counterexample: the per-year EBITDA field is 42 — the own `ebitda`
value of the statement — not `revenue - (cost_of_revenue + r_and_d + sga) +
depreciation = 95`; likewise `total_expenses` is the raw
`totalExpenses` of the statement (77), not the component sum (10). -/
theorem c7_counterexample :
    (build_profit_desc_data stmtC7 []).ebitda = some 42 ∧
    stmtC7.revenue.getD 0
        - (stmtC7.costOfRevenue.getD 0 + stmtC7.researchAndDevelopment.getD 0
            + stmtC7.sellingAndMarketingExpenses.getD 0)
        + stmtC7.depreciationAndAmortization.getD 0 = 95 ∧
    (42:ℚ) ≠ 95 ∧
    (build_profit_desc_data stmtC7 []).total_expenses = some 77 ∧
    stmtC7.costOfRevenue.getD 0 + stmtC7.researchAndDevelopment.getD 0
        + stmtC7.sellingAndMarketingExpenses.getD 0 = 10 ∧
    (77:ℚ) ≠ 10 :=
  ⟨by decide, by with_unfolding_all decide, by norm_num, by decide,
    by with_unfolding_all decide, by norm_num⟩

/-- C7 amended: the profit-description EBITDA, total-expenses and
depreciation fields are pass-throughs of the own `ebitda`, `totalExpenses`
and `depreciationAndAmortization` dictionary entries of the income
statement (null exactly when the entry is absent); no formula involving
revenue, expense components or depreciation is applied. -/
theorem c7_amended :
    ∀ (stmt : IncomeStmt) (rb : List (String × ℚ)),
      (build_profit_desc_data stmt rb).ebitda = stmt.ebitda ∧
      (build_profit_desc_data stmt rb).total_expenses = stmt.totalExpenses ∧
      (build_profit_desc_data stmt rb).amortization_depreciation
        = stmt.depreciationAndAmortization :=
  fun _ _ => ⟨rfl, rfl, rfl⟩

/-! ## C8: sign normalization of dividends and buybacks -/

/-- An income statement reporting dividends and repurchases as negative cash
outflows. -/
def stmtC8 : IncomeStmt :=
  { date := "2020-12-31"
    dividendsPaid := some (-500)
    stockRepurchased := some (-300) }

/-- C8 counterexample: the profit-description section passes the raw signs
through — `share_buybacks_from_stmt_cf` is `-300` and the (stringified)
`dividend_paid` is `-500`, both negative in the built output. -/
theorem c8_counterexample :
    (build_profit_desc_data stmtC8 []).share_buybacks_from_stmt_cf = -300 ∧
    ¬ (0:ℚ) ≤ (build_profit_desc_data stmtC8 []).share_buybacks_from_stmt_cf ∧
    (build_profit_desc_data stmtC8 []).dividend_paid = -500 ∧
    ¬ (0:ℚ) ≤ (build_profit_desc_data stmtC8 []).dividend_paid :=
  ⟨by decide, by decide, by decide, by decide⟩

/-- C8 amended: no normalized output exists.  The local `dividends_paid` and
`buyback` expressions of the per-year builder (lines 234 and 237) do apply
`abs()` and are always non-negative, but the `FinancialData` constructor
raises before any record carrying them is built, so the only dividend- and
buyback-reporting fields actually present in an output are the
profit-description ones, which pass the upstream sign through unchanged and
can be negative (see the counterexample). -/
theorem c8_amended :
    (∀ cf : CashFlowStmt, 0 ≤ yoy_dividends_paid cf ∧ 0 ≤ yoy_buyback cf) ∧
    (∀ (income : IncomeStmt) (balance : BalanceStmt) (pe : ℚ) (cf : CashFlowStmt)
        (km : Option KeyMetricStmt) (ph pl : Option ℚ),
        ∃ e, buildFinancialData income balance pe cf km ph pl = .error e) ∧
    (∀ (stmt : IncomeStmt) (rb : List (String × ℚ)),
        (build_profit_desc_data stmt rb).dividend_paid = stmt.dividendsPaid.getD 0 ∧
        (build_profit_desc_data stmt rb).share_buybacks_from_stmt_cf
          = stmt.stockRepurchased.getD 0) := by
  refine ⟨?_, ?_, ?_⟩
  · intro cf
    exact ⟨abs_nonneg _, abs_nonneg _⟩
  · intro income balance pe cf km ph pl
    exact buildFinancialData_never_ok income balance pe cf km ph pl
  · intro stmt rb
    exact ⟨rfl, rfl⟩

/-! ## C9: the year-range caller contract and other aborts -/

lemma process_profit_description_never_ok (pw : ℚ → ℤ → Option ℚ)
    (income_statements : List IncomeStmt) (rs : List (ℤ × List (String × ℚ)))
    (years : List ℤ) :
    ∃ e, process_profit_description pw income_statements rs years = .error e := by
  unfold process_profit_description
  cases calculate_profit_description_characteristics pw income_statements rs years with
  | error e => exact ⟨e, rfl⟩
  | ok ch => exact ⟨_, rfl⟩

lemma process_company_data_with_yoy_never_ok (pw : ℚ → ℤ → Option ℚ)
    (profile : CompanyProfile) (fy : String) (incs : List IncomeStmt)
    (bals : List BalanceStmt) (kms : List KeyMetricStmt)
    (rs : List (ℤ × List (String × ℚ))) (csp : ℚ) (years : List ℤ)
    (yoy : List (ℤ × FinancialData)) :
    ∃ e, process_company_data_with_yoy pw profile fy incs bals kms rs csp years yoy
      = .error e := by
  unfold process_company_data_with_yoy
  cases process_analyses pw yoy with
  | error e => exact ⟨e, rfl⟩
  | ok analyses =>
    obtain ⟨e, hp⟩ := process_profit_description_never_ok pw incs rs years
    exact ⟨e, by rw [hp]⟩

/-- C9 amended: a requested start year strictly greater than the derived end
year always aborts the run with the configuration `ValueError`, before any
statement is processed; it is however NOT the only abort condition — in
fact, with the stale dataclass declarations, EVERY run with a valid year
range aborts as well: at the `FinancialData` constructor as soon as one year
resolves all three statements, and otherwise no later than the
profit-description stage (a `TypeError` in a CAGR percent wrapper or the
unconditional `TypeError` at the `ProfitDescriptionCharacteristics`
constructor). -/
theorem c9_amended :
    (∀ (pw : ℚ → ℤ → Option ℚ) (sy ey : ℤ) (profile : CompanyProfile)
        (fy : String) (incs : List IncomeStmt) (bals : List BalanceStmt)
        (cfs : List CashFlowStmt) (kms : List KeyMetricStmt)
        (rs : List (ℤ × List (String × ℚ))) (csp : ℚ) (ph pl : ℤ → Option ℚ),
        sy > ey →
        process_company_data pw sy ey profile fy incs bals cfs kms rs csp ph pl
          = .error "ValueError: START_YEAR cannot be greater than END_YEAR.") ∧
    (∀ (pw : ℚ → ℤ → Option ℚ) (sy ey : ℤ) (profile : CompanyProfile)
        (fy : String) (incs : List IncomeStmt) (bals : List BalanceStmt)
        (cfs : List CashFlowStmt) (kms : List KeyMetricStmt)
        (rs : List (ℤ × List (String × ℚ))) (csp : ℚ) (ph pl : ℤ → Option ℚ),
        ¬ sy > ey →
        ∃ e, process_company_data pw sy ey profile fy incs bals cfs kms rs csp ph pl
          = .error e) := by
  constructor
  · intro pw sy ey profile fy incs bals cfs kms rs csp ph pl h
    unfold process_company_data
    rw [if_pos h]
  · intro pw sy ey profile fy incs bals cfs kms rs csp ph pl h
    unfold process_company_data
    rw [if_neg h]
    cases process_yoy_financial_data (yearsRange sy ey) incs bals cfs kms ph pl with
    | error e => exact ⟨e, rfl⟩
    | ok yoy =>
      obtain ⟨e, hw⟩ := process_company_data_with_yoy_never_ok pw profile fy incs
        bals kms rs csp (yearsRange sy ey) yoy
      exact ⟨e, hw⟩

/-- Witness for C9 (amended) at `start_year = 2021 > 2020 = end_year`. -/
theorem c9_witness :
    process_company_data pwId 2021 2020 {} "" [] [] [] [] [] 0
        (fun _ => none) (fun _ => none)
      = .error "ValueError: START_YEAR cannot be greater than END_YEAR." :=
  c9_amended.1 pwId 2021 2020 {} "" [] [] [] [] [] 0 (fun _ => none) (fun _ => none)
    (by decide)

set_option maxRecDepth 100000 in
/-- C9 counterexample: the caller-contract violation is NOT the only abort
condition — a valid single-year run (`start_year = end_year = 2020`) over a
complete statement set aborts with the `TypeError` raised by the
`FinancialData` constructor on its six undeclared keyword arguments, inside
`_process_yoy_financial_data`. -/
theorem c9_counterexample :
    ¬ (2020:ℤ) > 2020 ∧
    process_company_data pwId 2020 2020 {} "12-31" [incC9] [balC9] [cfC9] [] [] 0
        (fun _ => none) (fun _ => none)
      = .error "TypeError: init got an unexpected keyword argument revenues" :=
  ⟨by decide, by with_unfolding_all decide⟩

/-! ## C10: last-5-years sales analysis -/

/-- Strictly ascending list of years. -/
def intsStrictAsc : List ℤ → Bool
  | [] => true
  | [_] => true
  | a :: b :: rest => a < b && intsStrictAsc (b :: rest)

lemma intsStrictAsc_tail {a : ℤ} {l : List ℤ}
    (h : intsStrictAsc (a :: l) = true) : intsStrictAsc l = true := by
  cases l with
  | nil => rfl
  | cons b t =>
    have h' : (decide (a < b) && intsStrictAsc (b :: t)) = true := h
    exact ((Bool.and_eq_true _ _).mp h').2

lemma intsStrictAsc_head_lt {a b : ℤ} {t : List ℤ}
    (h : intsStrictAsc (a :: b :: t) = true) : a < b := by
  have h' : (decide (a < b) && intsStrictAsc (b :: t)) = true := h
  exact of_decide_eq_true ((Bool.and_eq_true _ _).mp h').1

lemma intsStrictAsc_lt_mem {a : ℤ} {l : List ℤ}
    (h : intsStrictAsc (a :: l) = true) : ∀ z ∈ l, a < z := by
  induction l generalizing a with
  | nil => intro z hz; simp at hz
  | cons b t ih =>
    intro z hz
    have hab : a < b := intsStrictAsc_head_lt h
    rcases List.mem_cons.mp hz with rfl | hz'
    · exact hab
    · exact lt_trans hab (ih (intsStrictAsc_tail h) z hz')

lemma sortYears_sorted_id {l : List ℤ} (h : intsStrictAsc l = true) :
    sortYears l = l := by
  induction l with
  | nil => rfl
  | cons a t ih =>
    have hstep : sortYears (a :: t) = insertYear a (sortYears t) := rfl
    rw [hstep, ih (intsStrictAsc_tail h)]
    cases t with
    | nil => rfl
    | cons b u =>
      have hab : a < b := intsStrictAsc_head_lt h
      unfold insertYear
      rw [if_pos (le_of_lt hab)]

lemma takeLast_five_cons {y : ℤ} {l : List ℤ} (h : 5 ≤ l.length) :
    takeLast 5 (y :: l) = takeLast 5 l := by
  unfold takeLast
  have hlen : (y :: l).length - 5 = (l.length - 5) + 1 := by
    simp [List.length_cons]
    omega
  rw [hlen, List.drop_succ_cons]

lemma lookupYear_cons_ne {y z : ℤ} {d : FinancialData}
    {m : List (ℤ × FinancialData)} (h : y ≠ z) :
    lookupYear ((y, d) :: m) z = lookupYear m z := by
  unfold lookupYear
  rw [List.find?_cons_of_neg]
  simpa using h

lemma filterMap_congr_on {α β : Type} {l : List α} {f g : α → Option β}
    (h : ∀ a ∈ l, f a = g a) : l.filterMap f = l.filterMap g := by
  induction l with
  | nil => rfl
  | cons a t ih =>
    rw [List.filterMap_cons, List.filterMap_cons, h a (by simp),
      ih (fun x hx => h x (by simp [hx]))]

/-- The per-year record of the C10 dataset: revenue `v`, ten shares. -/
def fdY (v : ℚ) : FinancialData :=
  { revenues := some v, sales_per_share := some (v / 10) }

/-- Six years of data whose 2018 revenue is exactly 0 while an older valid
year (2015) exists outside the 5-greatest-years window. -/
def m6 : List (ℤ × FinancialData) :=
  [(2015, fdY 50), (2016, fdY 100), (2017, fdY 110), (2018, fdY 0),
   (2019, fdY 130), (2020, fdY 200)]

set_option maxRecDepth 100000 in
/-- C10: the last-5-years sales analysis selects the five greatest years
first and only then filters falsy values: (1) prepending a year older than
at least five existing years never changes the result (an earlier sixth year
never replaces a filtered-out year); (2) when fewer than five years exist,
all are selected; (3) on the concrete six-year dataset with a zero 2018
revenue, the source computes the CAGR from the four surviving pairs of the
2016-2020 window (100%), whereas the opposite filter-first policy would
anchor at 2015 and yield 300%. -/
theorem c10_last5_select_then_filter :
    (∀ (pw : ℚ → ℤ → Option ℚ) (y : ℤ) (d : FinancialData)
        (m : List (ℤ × FinancialData)),
        intsStrictAsc (((y, d) :: m).map Prod.fst) = true → 5 ≤ m.length →
        compute_sales_analysis_last_5_years pw ((y, d) :: m)
          = compute_sales_analysis_last_5_years pw m) ∧
    (∀ l : List ℤ, l.length ≤ 5 → takeLast 5 l = l) ∧
    (compute_sales_analysis_last_5_years pwId m6
        = .ok { growth_rate_percent_revenues := some 100,
                growth_rate_percent_sales_per_share := some 100 } ∧
      claim_sales_analysis_filter_then_select pwId m6
        = .ok { growth_rate_percent_revenues := some 300,
                growth_rate_percent_sales_per_share := some 300 } ∧
      (100:ℚ) ≠ 300) := by
  refine ⟨?_, ?_, ?_, ?_, by norm_num⟩
  · intro pw y d m hasc hlen
    have hmap : (((y, d) :: m).map Prod.fst) = y :: m.map Prod.fst := rfl
    rw [hmap] at hasc
    have htail : intsStrictAsc (m.map Prod.fst) = true := intsStrictAsc_tail hasc
    have hlenmap : 5 ≤ (m.map Prod.fst).length := by
      rw [List.length_map]; exact hlen
    have hlast : last_5_years_of ((y, d) :: m) = last_5_years_of m := by
      unfold last_5_years_of
      rw [hmap, sortYears_sorted_id hasc, sortYears_sorted_id htail,
        takeLast_five_cons hlenmap]
    have hmemlook : ∀ z ∈ last_5_years_of m,
        lookupYear ((y, d) :: m) z = lookupYear m z := by
      intro z hz
      have hz2 : z ∈ m.map Prod.fst := by
        have hfive : last_5_years_of m = takeLast 5 (m.map Prod.fst) := by
          unfold last_5_years_of
          rw [sortYears_sorted_id htail]
        rw [hfive] at hz
        exact List.drop_subset _ _ hz
      exact lookupYear_cons_ne (ne_of_lt (intsStrictAsc_lt_mem hasc z hz2))
    have hrev : rev_pairs_5y_of ((y, d) :: m) = rev_pairs_5y_of m := by
      unfold rev_pairs_5y_of
      rw [hlast]
      exact filterMap_congr_on (fun z hz => by rw [hmemlook z hz])
    have hsps : sps_pairs_5y_of ((y, d) :: m) = sps_pairs_5y_of m := by
      unfold sps_pairs_5y_of
      rw [hlast]
      exact filterMap_congr_on (fun z hz => by rw [hmemlook z hz])
    unfold compute_sales_analysis_last_5_years
    rw [hrev, hsps]
  · intro l h
    unfold takeLast
    rw [Nat.sub_eq_zero_of_le h, List.drop_zero]
  · with_unfolding_all decide
  · with_unfolding_all decide

set_option maxRecDepth 100000 in
/-- Witness for C10 at a concrete seventh, older year prepended to the
six-year dataset: the analysis is unchanged. -/
theorem c10_witness :
    compute_sales_analysis_last_5_years pwId ((2014, fdY 70) :: m6)
      = compute_sales_analysis_last_5_years pwId m6 :=
  c10_last5_select_then_filter.1 pwId 2014 (fdY 70) m6 (by decide) (by decide)
